import Mathlib

set_option maxRecDepth 8000
set_option linter.unusedVariables false

/-!
Verification of the legal-reference-api federated retrieval core.

Python strings are modelled as `List Char` (`PyStr`), Python ints as `Int`
(`Nat` where the source value is manifestly non-negative), floats that the
code merely passes around (similarity scores, temperature) as `Rat`.
Each `re.sub` call of the source is embedded as an explicit left-to-right
scanner with the leftmost-match semantics of the Python `re` module for the
concrete pattern used: on a failed match the scan advances one character, on
a match it emits the replacement and resumes after the matched text
(replacements are never rescanned).  The scanners recurse on an explicit
fuel initialised to the input length; every step consumes at least one input
character, so the fuel never runs out and the scanner agrees with the
unbounded one.
External collaborators (HTTP providers, the Supabase store, the embedding
and completion backends) are oracle parameters supplied to the embedded
functions, mirroring exactly the data each call site consumes.
-/

/-- Python `str` modelled as a list of characters. -/
abbrev PyStr := List Char

/-- Coerce a Lean string literal to the `PyStr` model. -/
def pyOfString (s : String) : PyStr := s.data

/-- The characters stripped by Python `str.strip()` (ASCII whitespace; the
texts of this development are ASCII).  Also the ASCII characters matched by
the regex class `\s`. -/
def isPySpace (c : Char) : Bool :=
  c = ' ' ∨ c = '\t' ∨ c = '\n' ∨ c = '\r' ∨ c = '\x0b' ∨ c = '\x0c'

/-- Python `str.strip()`. -/
def pyStrip (s : PyStr) : PyStr :=
  ((s.dropWhile isPySpace).reverse.dropWhile isPySpace).reverse

/-- Clamp one Python slice index (supporting negative indices) to `[0, n]`. -/
def pyIdx (n : Nat) (i : Int) : Nat :=
  if i < 0 then (max ((n : Int) + i) 0).toNat else min i.toNat n

/-- Python slice `s[i:j]`, full Python index semantics. -/
def pySlice (s : PyStr) (i j : Int) : PyStr :=
  (s.take (pyIdx s.length j)).drop (pyIdx s.length i)

/-- `pre` is an initial segment of `l`. -/
def leadsWith : PyStr → PyStr → Bool
  | [], _ => true
  | _ :: _, [] => false
  | p :: ps, c :: cs => p = c && leadsWith ps cs

/-- `suf` is a final segment of `l`. -/
def endsWithSub (l suf : PyStr) : Bool :=
  leadsWith suf.reverse l.reverse

/-- Python `s.rfind(sub)`: highest index at which `sub` occurs in `s`, `-1`
when absent. -/
def pyRfind (s sub : PyStr) : Int :=
  match ((List.range (s.length + 1)).filter (fun i => leadsWith sub (s.drop i))).getLast? with
  | some i => (i : Int)
  | none => -1

/-- Python `sep.join(parts)` on character lists. -/
def pyJoin (sep : PyStr) (parts : List PyStr) : PyStr :=
  List.intercalate sep parts

/-- Python truthiness of an optional string (`None` and `""` are falsy). -/
def truthyOptStr (s : Option PyStr) : Bool :=
  match s with
  | none => false
  | some t => t ≠ []

/-- Python truthiness of an optional list (`None` and `[]` are falsy). -/
def truthyOptList {α : Type} (l : Option (List α)) : Bool :=
  match l with
  | none => false
  | some t => !t.isEmpty

/-- Python `a or d` for an optional string `a` and a default `d`
(`None` and `""` fall through to the default). -/
def pyOrD (a : Option PyStr) (d : PyStr) : PyStr :=
  match a with
  | some s => if s = [] then d else s
  | none => d

/-- Python `str.lower` (ASCII). -/
def pyLower (s : PyStr) : PyStr := s.map Char.toLower

/-! ## Content Cleaner (`app/services/ai.py`, `clean_content`) -/

/-- Split a character list at the first `'>'`, returning the segment before
it and the remainder after it. -/
def splitGt : PyStr → Option (PyStr × PyStr)
  | [] => none
  | c :: t =>
    if c = '>' then some ([], t)
    else
      match splitGt t with
      | some (b, a) => some (c :: b, a)
      | none => none

/-- Scanner for `re.sub(r"<[^>]+>", " ", s)`: an HTML-tag-shaped span (a
`'<'`, at least one non-`'>'` character, then the first `'>'`) becomes one
space. -/
def subHtmlF : Nat → PyStr → PyStr
  | 0, s => s
  | _ + 1, [] => []
  | fuel + 1, c :: t =>
    if c = '<' then
      match splitGt t with
      | some (b, a) => if b = [] then '<' :: subHtmlF fuel t else ' ' :: subHtmlF fuel a
      | none => '<' :: subHtmlF fuel t
    else c :: subHtmlF fuel t

def subHtml (s : PyStr) : PyStr := subHtmlF s.length s

/-- Match `https?://\S+` at the head of `s`; on success return the remainder
after the greedy non-whitespace run (which must be non-empty). -/
def matchUrlAt (s : PyStr) : Option PyStr :=
  let after :=
    if leadsWith (pyOfString "https://") s then some (s.drop 8)
    else if leadsWith (pyOfString "http://") s then some (s.drop 7)
    else none
  match after with
  | none => none
  | some rest =>
    let run := rest.takeWhile (fun c => !isPySpace c)
    if run = [] then none else some (rest.drop run.length)

/-- Scanner for `re.sub(r"https?://\S+", "", s)`. -/
def subUrlsF : Nat → PyStr → PyStr
  | 0, s => s
  | _ + 1, [] => []
  | fuel + 1, c :: t =>
    match matchUrlAt (c :: t) with
    | some rest => subUrlsF fuel rest
    | none => c :: subUrlsF fuel t

def subUrls (s : PyStr) : PyStr := subUrlsF s.length s

/-- Scanner for `re.sub(r"[ \t]+", " ", s)`. -/
def collapseSpaceTabF : Nat → PyStr → PyStr
  | 0, s => s
  | _ + 1, [] => []
  | fuel + 1, c :: t =>
    if c = ' ' ∨ c = '\t' then
      ' ' :: collapseSpaceTabF fuel (t.dropWhile (fun x => x = ' ' ∨ x = '\t'))
    else c :: collapseSpaceTabF fuel t

def collapseSpaceTab (s : PyStr) : PyStr := collapseSpaceTabF s.length s

/-- Scanner for `re.sub(r"\n{3,}", "\n\n", s)`: a run of three or more
newlines becomes exactly two; shorter runs pass through. -/
def collapseNewlinesF : Nat → PyStr → PyStr
  | 0, s => s
  | _ + 1, [] => []
  | fuel + 1, c :: t =>
    if c = '\n' then
      let run := 1 + (t.takeWhile (fun x => x = '\n')).length
      (if run ≥ 3 then ['\n', '\n'] else List.replicate run '\n')
        ++ collapseNewlinesF fuel (t.dropWhile (fun x => x = '\n'))
    else c :: collapseNewlinesF fuel t

def collapseNewlines (s : PyStr) : PyStr := collapseNewlinesF s.length s

/-- Python `str.split("\n")` (an empty string yields one empty line). -/
def splitNl : PyStr → List PyStr
  | [] => [[]]
  | c :: t =>
    if c = '\n' then [] :: splitNl t
    else
      match splitNl t with
      | [] => [[c]]
      | line :: rest => (c :: line) :: rest

/-- The `remove_short_lines` stage: keep a line when its stripped form
reaches the threshold or is blank; rejoin with newlines. -/
def filterShortLines (minLen : Nat) (s : PyStr) : PyStr :=
  pyJoin (pyOfString "\n")
    ((splitNl s).filter
      (fun line => decide (minLen ≤ (pyStrip line).length) || (pyStrip line).isEmpty))

/-- Scanner for `re.sub(r"\n(#{1,6})\s*", r"\n\n\1 ", s)`: the heading fix.
`#{1,6}` greedily takes up to six hashes, `\s*` greedily eats following
whitespace; the replacement inserts a second newline and a single space. -/
def mdHeadingF : Nat → PyStr → PyStr
  | 0, s => s
  | _ + 1, [] => []
  | fuel + 1, c :: t =>
    if c = '\n' then
      let hashes := (t.takeWhile (fun x => x = '#')).length
      if hashes = 0 then '\n' :: mdHeadingF fuel t
      else
        let k := min hashes 6
        let rest := t.drop k
        let ws := (rest.takeWhile isPySpace).length
        '\n' :: '\n' :: (List.replicate k '#' ++ ' ' :: mdHeadingF fuel (rest.drop ws))
    else c :: mdHeadingF fuel t

def mdHeading (s : PyStr) : PyStr := mdHeadingF s.length s

/-- Scanner for `re.sub(r"\n([-*])\s+", r"\n\1 ", s)`: the list-marker fix
(`\s+` requires at least one whitespace character). -/
def mdListF : Nat → PyStr → PyStr
  | 0, s => s
  | _ + 1, [] => []
  | fuel + 1, c :: t =>
    if c = '\n' then
      match t with
      | [] => ['\n']
      | m :: t2 =>
        if m = '-' ∨ m = '*' then
          let ws := (t2.takeWhile isPySpace).length
          if ws = 0 then '\n' :: mdListF fuel t
          else '\n' :: m :: ' ' :: mdListF fuel (t2.drop ws)
        else '\n' :: mdListF fuel t
    else c :: mdListF fuel t

def mdList (s : PyStr) : PyStr := mdListF s.length s

/-- The recognized cleaning options with the defaults of
`clean_content` (`opts.get(..., default)`). -/
structure CleanOptions where
  remove_html : Bool
  remove_urls : Bool
  normalize_whitespace : Bool
  remove_short_lines : Bool
  min_line_length : Nat
  normalize_markdown : Bool
deriving DecidableEq, Repr

/-- The option values `clean_content` uses when called without options. -/
def defaultCleanOptions : CleanOptions :=
  { remove_html := true
    remove_urls := false
    normalize_whitespace := true
    remove_short_lines := false
    min_line_length := 10
    normalize_markdown := true }

/-- `clean_content(text, options)` of `app/services/ai.py`: the staged
cleaning pipeline ending in `str.strip()`. -/
def clean_content (text : PyStr) (opts : CleanOptions) : PyStr :=
  if text = [] then []
  else
    let c1 := if opts.remove_html then subHtml text else text
    let c2 := if opts.remove_urls then subUrls c1 else c1
    let c3 := if opts.normalize_whitespace then collapseNewlines (collapseSpaceTab c2) else c2
    let c4 := if opts.remove_short_lines then filterShortLines opts.min_line_length c3 else c3
    let c5 := if opts.normalize_markdown then mdList (mdHeading c4) else c4
    pyStrip c5

/-! ## Chunker (`app/services/ai.py`, `chunk_text`) -/

/-- The sentence separators tried, in order, at a chunk boundary. -/
def chunkSeps : List PyStr :=
  [pyOfString ". ", pyOfString ".\n", pyOfString "? ", pyOfString "?\n",
   pyOfString "! ", pyOfString "!\n"]

/-- The `for sep in [...]` loop of `chunk_text`: the first separator in list
order whose `rfind` in the window lands strictly past `chunk_size // 2`
determines the new window end (offset `last_sep + len(sep)` from the window
start). -/
def findSepEnd (window : PyStr) (cs : Nat) : List PyStr → Option Nat
  | [] => none
  | sep :: rest =>
    let lastSep := pyRfind window sep
    if lastSep > ((cs / 2 : Nat) : Int) then some (lastSep.toNat + sep.length)
    else findSepEnd window cs rest

/-- The window end computed by one iteration of the `chunk_text` loop from
window start `start`. -/
def chunkEnd (text : PyStr) (cs : Nat) (start : Int) : Int :=
  let end0 : Int := start + (cs : Int)
  if end0 < (text.length : Int) then
    match findSepEnd (pySlice text start end0) cs chunkSeps with
    | some d => start + (d : Int)
    | none => end0
  else end0

/-- The next window start of the `chunk_text` loop: `end - overlap`. -/
def chunkNextStart (text : PyStr) (cs ov : Nat) (start : Int) : Int :=
  chunkEnd text cs start - (ov : Int)

/-- The window starts visited by the `chunk_text` loop, from the initial
`start = 0`. -/
def chunkIter (text : PyStr) (cs ov : Nat) : Nat → Int
  | 0 => 0
  | n + 1 => chunkNextStart text cs ov (chunkIter text cs ov n)

/-- The `while start < len(text)` loop of `chunk_text`, on explicit fuel:
emit the stripped window when non-empty, then restart at `end - overlap`. -/
def chunkLoop (text : PyStr) (cs ov : Nat) : Nat → Int → List PyStr → List PyStr
  | 0, _, acc => acc
  | fuel + 1, start, acc =>
    if start < (text.length : Int) then
      chunkLoop text cs ov fuel (chunkEnd text cs start - (ov : Int))
        (if pyStrip (pySlice text start (chunkEnd text cs start)) = [] then acc
         else acc ++ [pyStrip (pySlice text start (chunkEnd text cs start))])
    else acc

/-- `chunk_text(text, chunk_size, overlap)` of `app/services/ai.py`.  The
loop is run on fuel `len(text) + 1`; under the default parameters
(`1000`/`100`, and any parameters with `overlap ≤ chunk_size/2 + 2`) the
window start advances at least one character per iteration, so the fuel is
never exhausted. -/
def chunk_text (text : PyStr) (cs ov : Nat) : List PyStr :=
  if text = [] then []
  else if text.length < cs then [text]
  else chunkLoop text cs ov (text.length + 1) 0 []

/-! ## Search data model (`app/models/search.py`) -/

inductive SourceType
  | website | pdf | video | document | article | ebook
deriving DecidableEq, Repr

inductive FileTypeFilter
  | all | pdf | doc | ebook
deriving DecidableEq, Repr

inductive CourtListenerSearchType
  | opinions | recap | oral_arguments
deriving DecidableEq, Repr

structure SearchResultMetadata where
  docket_number : Option PyStr
  date_filed : Option PyStr
  court : Option PyStr
  case_id : Option PyStr
  case_number : Option PyStr
  state : Option PyStr
  case_type : Option PyStr
  case_status : Option PyStr
deriving DecidableEq, Repr

structure SearchResult where
  title : PyStr
  url : PyStr
  snippet : Option PyStr
  source_type : SourceType
  thumbnail : Option PyStr
  metadata : Option SearchResultMetadata
deriving DecidableEq, Repr

structure SearchResponse where
  results : List SearchResult
  count : Nat
  total : Option Int
  query : PyStr
  error : Option PyStr
deriving DecidableEq, Repr

structure SourceSearchResult where
  results : List SearchResult
  count : Nat
deriving DecidableEq, Repr

/-- A raised `fastapi.HTTPException`. -/
structure HTTPException where
  status_code : Nat
  detail : PyStr
deriving DecidableEq, Repr

/-- The settings fields (`app/config.py`) the embedded core reads; unset
environment variables are the empty string, exactly as in the source. -/
structure Settings where
  google_api_key : PyStr
  google_search_engine_id : PyStr
  youtube_api_key : PyStr
  courtlistener_api_token : PyStr
  congress_api_key : PyStr
  unicourt_client_id : PyStr
  unicourt_client_secret : PyStr
  openai_api_key : PyStr
  gemini_api_key : PyStr
deriving DecidableEq, Repr

structure BaseSearchRequest where
  query : PyStr
  category : Option PyStr
  limit : Nat
deriving DecidableEq, Repr

structure GoogleSearchRequest where
  query : PyStr
  category : Option PyStr
  limit : Nat
  file_type : Option FileTypeFilter
deriving DecidableEq, Repr

structure CourtListenerSearchRequest where
  query : PyStr
  category : Option PyStr
  limit : Nat
  court : Option PyStr
  search_type : CourtListenerSearchType
  date_from : Option PyStr
  date_to : Option PyStr
deriving DecidableEq, Repr

structure UniCourtSearchRequest where
  query : Option PyStr
  state : Option PyStr
  case_type : Option PyStr
  party_name : Option PyStr
  attorney_name : Option PyStr
  judge_name : Option PyStr
  case_number : Option PyStr
  date_from : Option PyStr
  date_to : Option PyStr
  limit : Nat
  page : Nat
deriving DecidableEq, Repr

/-! ## Source adapters (`app/routers/search/*.py`)

Each adapter is embedded as a function of the settings, the request and the
provider's HTTP response (an oracle: status code, raw body text for error
details, and the parsed payload the success path reads).  The result is the
Python outcome — `.ok` a returned `SearchResponse`, `.error` a raised
`HTTPException` — paired with a `Bool` recording whether the external call
was attempted. -/

/-- `detect_source_type` of `google.py`. -/
def detect_source_type (url : PyStr) : SourceType :=
  let l := pyLower url
  if endsWithSub l (pyOfString ".pdf") then .pdf
  else if endsWithSub l (pyOfString ".doc") || endsWithSub l (pyOfString ".docx") then .document
  else if endsWithSub l (pyOfString ".epub") || endsWithSub l (pyOfString ".mobi") then .ebook
  else .website

/-- The snippet truncation step shared by the composing adapters:
`if len(snippet) > 300: snippet = snippet[:297] + "..."`. -/
def truncateSnippet (s : PyStr) : PyStr :=
  if 300 < s.length then s.take 297 ++ pyOfString "..." else s

/-- `f"{query} {category}" if request.category else request.query`. -/
def categoryQuery (query : PyStr) (category : Option PyStr) : PyStr :=
  if truthyOptStr category then query ++ ' ' :: (category.getD []) else query

-- ### Google Custom Search (`google.py`)

structure GoogleThumb where
  src : Option PyStr
deriving DecidableEq, Repr

structure GoogleItem where
  title : Option PyStr
  link : Option PyStr
  snippet : Option PyStr
  pagemap_cse_thumbnail : Option (List GoogleThumb)
deriving DecidableEq, Repr

structure GoogleResp where
  status : Nat
  text : PyStr
  items : List GoogleItem
deriving DecidableEq, Repr

/-- The query string `search_google` sends (category then file-type filter). -/
def googleSearchQuery (req : GoogleSearchRequest) : PyStr :=
  let base := categoryQuery req.query req.category
  match req.file_type with
  | some FileTypeFilter.pdf => base ++ pyOfString " filetype:pdf"
  | some FileTypeFilter.doc => base ++ pyOfString " (filetype:doc OR filetype:docx)"
  | some FileTypeFilter.ebook => base ++ pyOfString " (filetype:epub OR filetype:mobi OR filetype:pdf ebook)"
  | _ => base

/-- One Google item transformed to a `SearchResult`; note the snippet is
passed through untouched and the url defaults to the empty string. -/
def googleResult (item : GoogleItem) : SearchResult :=
  let thumbnail :=
    match item.pagemap_cse_thumbnail with
    | some (t :: _) => t.src
    | _ => none
  { title := item.title.getD []
    url := item.link.getD []
    snippet := item.snippet
    source_type := detect_source_type (item.link.getD [])
    thumbnail := thumbnail
    metadata := none }

def googleResults (items : List GoogleItem) : List SearchResult :=
  items.map googleResult

/-- `search_google` of `google.py`. -/
def search_google (st : Settings) (req : GoogleSearchRequest) (resp : GoogleResp) :
    Except HTTPException SearchResponse × Bool :=
  if st.google_api_key = [] ∨ st.google_search_engine_id = [] then
    (.error ⟨500, pyOfString "Google API credentials not configured"⟩, false)
  else
    let sq := googleSearchQuery req
    if resp.status ≠ 200 then
      (.error ⟨resp.status, pyOfString "Google Search API error: " ++ resp.text⟩, true)
    else
      let rs := googleResults resp.items
      (.ok { results := rs, count := rs.length, total := none, query := sq, error := none }, true)

-- ### Google Books (`books.py`)

structure BooksItem where
  title : Option PyStr
  infoLink : Option PyStr
  previewLink : Option PyStr
  description : Option PyStr
  authors : List PyStr
  publisher : Option PyStr
  publishedDate : Option PyStr
  epub_isAvailable : Bool
  pdf_isAvailable : Bool
  thumbnail : Option PyStr
  smallThumbnail : Option PyStr
deriving DecidableEq, Repr

structure BooksResp where
  status : Nat
  text : PyStr
  items : List BooksItem
deriving DecidableEq, Repr

/-- Python `a or b` on two optional strings. -/
def pyOrOpt (a b : Option PyStr) : Option PyStr :=
  if truthyOptStr a then a else b

/-- One Google Books volume transformed to a `SearchResult`; the url
or-chain bottoms out at the empty string. -/
def booksResult (item : BooksItem) : SearchResult :=
  let snippet0 := item.description.getD []
  let snippet1 :=
    if item.authors.isEmpty then snippet0
    else pyOfString "By " ++ pyJoin (pyOfString ", ") item.authors ++ pyOfString ". " ++ snippet0
  let snippet2 :=
    if truthyOptStr item.publisher && truthyOptStr item.publishedDate then
      snippet1 ++ pyOfString " (" ++ (item.publisher.getD []) ++ pyOfString ", "
        ++ (item.publishedDate.getD []) ++ pyOfString ")"
    else snippet1
  { title := item.title.getD []
    url := pyOrD item.infoLink (pyOrD item.previewLink [])
    snippet := some (truncateSnippet snippet2)
    source_type := if item.epub_isAvailable || item.pdf_isAvailable then .ebook else .document
    thumbnail := pyOrOpt item.thumbnail item.smallThumbnail
    metadata := none }

def booksResults (items : List BooksItem) : List SearchResult :=
  items.map booksResult

/-- The query `search_books` sends (`"{query} law"` without a category). -/
def booksSearchQuery (req : BaseSearchRequest) : PyStr :=
  if truthyOptStr req.category then req.query ++ ' ' :: (req.category.getD [])
  else req.query ++ pyOfString " law"

/-- `search_books` of `books.py` (the API key is optional: no credential
gate). -/
def search_books (st : Settings) (req : BaseSearchRequest) (resp : BooksResp) :
    Except HTTPException SearchResponse × Bool :=
  let sq := booksSearchQuery req
  if resp.status ≠ 200 then
    (.error ⟨resp.status, pyOfString "Google Books API error: " ++ resp.text⟩, true)
  else
    let rs := booksResults resp.items
    (.ok { results := rs, count := rs.length, total := none, query := sq, error := none }, true)

-- ### CourtListener (`courtlistener.py`)

structure CLOpinion where
  snippet : Option PyStr
deriving DecidableEq, Repr

structure CLItem where
  opinions : List CLOpinion
  court : Option PyStr
  caseName : Option PyStr
  caseNameShort : Option PyStr
  absolute_url : Option PyStr
  docketNumber : Option PyStr
  dateFiled : Option PyStr
deriving DecidableEq, Repr

structure CLResp where
  status : Nat
  text : PyStr
  results : List CLItem
  count : Option Int
deriving DecidableEq, Repr

/-- One CourtListener row transformed to a `SearchResult`: the snippet comes
from the first opinion, is prefixed by the court and truncated; the url is
always the site root followed by the relative `absolute_url`. -/
def courtListenerResult (item : CLItem) : SearchResult :=
  let opinionSnippet :=
    match item.opinions with
    | o :: _ => o.snippet.getD []
    | [] => []
  let snippet1 :=
    if truthyOptStr item.court then (item.court.getD []) ++ pyOfString ". " ++ opinionSnippet
    else opinionSnippet
  { title := pyOrD item.caseName (pyOrD item.caseNameShort (pyOfString "Unknown Case"))
    url := pyOfString "https://www.courtlistener.com" ++ (item.absolute_url.getD [])
    snippet := some (truncateSnippet snippet1)
    source_type := .document
    thumbnail := none
    metadata := some
      { docket_number := item.docketNumber
        date_filed := item.dateFiled
        court := item.court
        case_id := none, case_number := none, state := none
        case_type := none, case_status := none } }

def courtListenerResults (items : List CLItem) : List SearchResult :=
  items.map courtListenerResult

/-- `search_courtlistener` of `courtlistener.py` (the token is optional: it
only adds an auth header, there is no credential gate). -/
def search_courtlistener (st : Settings) (req : CourtListenerSearchRequest) (resp : CLResp) :
    Except HTTPException SearchResponse × Bool :=
  let sq := categoryQuery req.query req.category
  if resp.status ≠ 200 then
    (.error ⟨resp.status, pyOfString "CourtListener API error: " ++ resp.text⟩, true)
  else
    let rs := courtListenerResults resp.results
    (.ok { results := rs, count := rs.length, total := resp.count, query := sq, error := none }, true)

-- ### Congress.gov (`congress.py`)

structure CongressLatestAction where
  actionDate : Option PyStr
  text : Option PyStr
deriving DecidableEq, Repr

structure CongressSponsor where
  name : Option PyStr
  party : Option PyStr
  state : Option PyStr
deriving DecidableEq, Repr

structure CongressItem where
  title : Option PyStr
  latestAction : Option CongressLatestAction
  sponsors : List CongressSponsor
  typ : Option PyStr -- the JSON field "type"
  number : Option PyStr
  congress : Option PyStr
deriving DecidableEq, Repr

structure CongressResp where
  status : Nat
  text : PyStr
  bills : List CongressItem
  pagination_count : Option Int
deriving DecidableEq, Repr

/-- One Congress.gov bill transformed to a `SearchResult`; the url is
synthesized from congress number, bill type and bill number. -/
def congressResult (item : CongressItem) : SearchResult :=
  let snippet0 := item.title.getD []
  let snippet1 :=
    match item.latestAction with
    | some la =>
      snippet0 ++ pyOfString " Latest action (" ++ (la.actionDate.getD [])
        ++ pyOfString "): " ++ (la.text.getD [])
    | none => snippet0
  let snippet2 :=
    match item.sponsors with
    | s :: _ =>
      snippet1 ++ pyOfString " Sponsor: " ++ (s.name.getD []) ++ pyOfString " ("
        ++ (s.party.getD []) ++ pyOfString "-" ++ (s.state.getD []) ++ pyOfString ")"
    | [] => snippet1
  let billType := pyLower (pyOrD item.typ (pyOfString "bill"))
  let billNumber := item.number.getD []
  let congressNum := item.congress.getD (pyOfString "118")
  { title := (item.typ.getD (pyOfString "Bill")) ++ ' ' :: billNumber ++ pyOfString ": "
      ++ (item.title.getD (pyOfString "Untitled"))
    url := pyOfString "https://www.congress.gov/bill/" ++ congressNum
      ++ pyOfString "th-congress/" ++ billType ++ '/' :: billNumber
    snippet := some (truncateSnippet snippet2)
    source_type := .document
    thumbnail := none
    metadata := none }

def congressResults (items : List CongressItem) : List SearchResult :=
  items.map congressResult

/-- `search_congress` of `congress.py`: 401/403 becomes a returned
`SearchResponse` carrying an error string; any other non-200 status raises. -/
def search_congress (st : Settings) (req : BaseSearchRequest) (resp : CongressResp) :
    Except HTTPException SearchResponse × Bool :=
  let sq := categoryQuery req.query req.category
  if resp.status = 401 ∨ resp.status = 403 then
    (.ok { results := [], count := 0, total := none, query := sq,
           error := some (pyOfString "Congress.gov API key required. Get one free at api.congress.gov") },
     true)
  else if resp.status ≠ 200 then
    (.error ⟨resp.status, pyOfString "Congress.gov API error: " ++ resp.text⟩, true)
  else
    let rs := congressResults resp.bills
    (.ok { results := rs, count := rs.length, total := resp.pagination_count, query := sq,
           error := none }, true)

-- ### UniCourt (`unicourt.py`)

structure UniCourtParty where
  name : Option PyStr
deriving DecidableEq, Repr

structure UniCourtItem where
  courtName : Option PyStr
  caseType : Option PyStr
  filedDate : Option PyStr
  caseStatus : Option PyStr
  parties : List UniCourtParty
  caseName : Option PyStr
  caseTitle : Option PyStr
  caseUrl : Option PyStr
  caseId : Option PyStr
  caseNumber : Option PyStr
  state : Option PyStr
deriving DecidableEq, Repr

structure UniCourtResp where
  status : Nat
  text : PyStr
  cases : List UniCourtItem
  totalCount : Option Int
  totalResults : Option Int
deriving DecidableEq, Repr

/-- Python `a or b` on optional ints (`None` and `0` are falsy). -/
def pyOrInt (a b : Option Int) : Option Int :=
  match a with
  | some n => if n = 0 then b else a
  | none => b

/-- `build_query` of `unicourt.py`. -/
def unicourtBuildQuery (p : UniCourtSearchRequest) : PyStr :=
  let queryPart :=
    match p.query with
    | some q =>
      if q = [] then []
      else if q.contains ':' then [q]
      else [pyOfString "(caseName:(" ++ q ++ pyOfString ") OR DocketEntry:(" ++ q ++ pyOfString "))"]
    | none => []
  let parts := queryPart
    ++ (if truthyOptStr p.state then
          [pyOfString "(JurisdictionGeo:(state:(name:\"" ++ (p.state.getD []) ++ pyOfString "\")))"]
        else [])
    ++ (if truthyOptStr p.case_type then
          [pyOfString "(CaseType:(name:\"" ++ (p.case_type.getD []) ++ pyOfString "\"))"]
        else [])
    ++ (if truthyOptStr p.party_name then
          [pyOfString "(Party:(name:\"" ++ (p.party_name.getD []) ++ pyOfString "\"))"]
        else [])
    ++ (if truthyOptStr p.attorney_name then
          [pyOfString "(Attorney:(name:\"" ++ (p.attorney_name.getD []) ++ pyOfString "\"))"]
        else [])
    ++ (if truthyOptStr p.judge_name then
          [pyOfString "(Judge:(name:\"" ++ (p.judge_name.getD []) ++ pyOfString "\"))"]
        else [])
    ++ (if truthyOptStr p.case_number then
          [pyOfString "(caseNumber:\"" ++ (p.case_number.getD []) ++ pyOfString "\")"]
        else [])
    ++ (if truthyOptStr p.date_from then
          [pyOfString "(filedDate:[" ++ (p.date_from.getD []) ++ pyOfString " TO *])"]
        else [])
    ++ (if truthyOptStr p.date_to then
          [pyOfString "(filedDate:[* TO " ++ (p.date_to.getD []) ++ pyOfString "])"]
        else [])
  pyJoin (pyOfString " AND ") parts

/-- One UniCourt case transformed to a `SearchResult`; the url falls back to
a deterministic `https://unicourt.com/case/{caseId}` synthesis. -/
def unicourtResult (item : UniCourtItem) : SearchResult :=
  let parts : List PyStr :=
    (if truthyOptStr item.courtName then [pyOfString "Court: " ++ (item.courtName.getD [])] else [])
    ++ (if truthyOptStr item.caseType then [pyOfString "Type: " ++ (item.caseType.getD [])] else [])
    ++ (if truthyOptStr item.filedDate then [pyOfString "Filed: " ++ (item.filedDate.getD [])] else [])
    ++ (if truthyOptStr item.caseStatus then [pyOfString "Status: " ++ (item.caseStatus.getD [])] else [])
    ++ (if item.parties.isEmpty then []
        else [pyOfString "Parties: "
          ++ pyJoin (pyOfString ", ") ((item.parties.take 3).map (fun p => p.name.getD []))])
  let snippet0 := if parts.isEmpty then [] else pyJoin (pyOfString ". ") parts ++ pyOfString "."
  let snippet1 := truncateSnippet snippet0
  { title := pyOrD item.caseName (pyOrD item.caseTitle (pyOfString "Unknown Case"))
    url := pyOrD item.caseUrl (pyOfString "https://unicourt.com/case/" ++ (item.caseId.getD []))
    snippet := some (if snippet1 = [] then pyOfString "No additional details available" else snippet1)
    source_type := .document
    thumbnail := none
    metadata := some
      { docket_number := none
        date_filed := item.filedDate
        court := item.courtName
        case_id := item.caseId
        case_number := item.caseNumber
        state := item.state
        case_type := item.caseType
        case_status := item.caseStatus } }

def unicourtResults (items : List UniCourtItem) (limit : Nat) : List SearchResult :=
  (items.take limit).map unicourtResult

/-- `search_unicourt` of `unicourt.py`.  `tok` is the outcome of
`get_access_token` (an oracle covering its token cache); missing credentials
return a configuration-error `SearchResponse` before any external call. -/
def search_unicourt (st : Settings) (req : UniCourtSearchRequest) (tok : Option PyStr)
    (resp : UniCourtResp) : Except HTTPException SearchResponse × Bool :=
  if st.unicourt_client_id = [] ∨ st.unicourt_client_secret = [] then
    (.ok { results := [], count := 0, total := some 0, query := pyOrD req.query [],
           error := some (pyOfString "UniCourt not configured. Add UNICOURT_CLIENT_ID and UNICOURT_CLIENT_SECRET.") },
     false)
  else
    match tok with
    | none => (.error ⟨401, pyOfString "Could not authenticate with UniCourt API"⟩, true)
    | some _ =>
      let sq := unicourtBuildQuery req
      if sq = [] then (.error ⟨400, pyOfString "Please provide search criteria"⟩, true)
      else if resp.status ≠ 200 then
        (.error ⟨resp.status, pyOfString "UniCourt search failed: " ++ resp.text⟩, true)
      else
        let rs := unicourtResults resp.cases req.limit
        (.ok { results := rs, count := rs.length,
               total := pyOrInt resp.totalCount resp.totalResults, query := sq, error := none },
         true)

/-! ## Aggregator (`app/routers/search/combined.py`, `search_combined`)

The nine adapter invocations are abstracted by an outcome oracle
`env : SourceKey → Except PyStr SearchResponse`: `.error` models a task in
`asyncio.gather(..., return_exceptions=True)` resolving to an exception,
`.ok` a returned `SearchResponse`. -/

inductive SourceKey
  | google | youtube | books | openlibrary | courtlistener | congress
  | federalregister | loc | unicourt
deriving DecidableEq, Repr

structure CombinedSearchRequest where
  query : PyStr
  category : Option PyStr
  file_type : Option FileTypeFilter
  limit : Nat
  include_google : Bool
  include_youtube : Bool
  include_books : Bool
  include_openlibrary : Bool
  include_courtlistener : Bool
  include_congress : Bool
  include_federalregister : Bool
  include_loc : Bool
  include_unicourt : Bool
  court : Option PyStr
  search_type : Option CourtListenerSearchType
  date_from : Option PyStr
  date_to : Option PyStr
  state : Option PyStr
  case_type : Option PyStr
deriving DecidableEq, Repr

structure CombinedSearchResponse where
  google : Option SourceSearchResult
  youtube : Option SourceSearchResult
  books : Option SourceSearchResult
  openlibrary : Option SourceSearchResult
  courtlistener : Option SourceSearchResult
  congress : Option SourceSearchResult
  federalregister : Option SourceSearchResult
  loc : Option SourceSearchResult
  unicourt : Option SourceSearchResult
  total : Nat
  query : PyStr
deriving DecidableEq, Repr

/-- The task keys queued by `search_combined`, in source order. -/
def enabledKeys (req : CombinedSearchRequest) : List SourceKey :=
  (if req.include_google then [SourceKey.google] else [])
  ++ (if req.include_youtube then [SourceKey.youtube] else [])
  ++ (if req.include_books then [SourceKey.books] else [])
  ++ (if req.include_openlibrary then [SourceKey.openlibrary] else [])
  ++ (if req.include_courtlistener then [SourceKey.courtlistener] else [])
  ++ (if req.include_congress then [SourceKey.congress] else [])
  ++ (if req.include_federalregister then [SourceKey.federalregister] else [])
  ++ (if req.include_loc then [SourceKey.loc] else [])
  ++ (if req.include_unicourt then [SourceKey.unicourt] else [])

/-- The per-source entry stored in the `results` dict: an exception becomes
a zero-result entry, a response keeps its results and count. -/
def combinedEntry (o : Except PyStr SearchResponse) : SourceSearchResult :=
  match o with
  | .error _ => { results := [], count := 0 }
  | .ok r => { results := r.results, count := r.count }

/-- The `results` dict of `search_combined` as an association list in task
order. -/
def combinedPairs (req : CombinedSearchRequest) (env : SourceKey → Except PyStr SearchResponse) :
    List (SourceKey × SourceSearchResult) :=
  (enabledKeys req).map (fun k => (k, combinedEntry (env k)))

/-- The running `total`: only counts of adapters that returned (did not
raise) are added. -/
def combinedTotal (req : CombinedSearchRequest) (env : SourceKey → Except PyStr SearchResponse) :
    Nat :=
  (enabledKeys req).foldl
    (fun acc k => match env k with | .error _ => acc | .ok r => acc + r.count) 0

/-- `results.get(key)`. -/
def combinedLookup (pairs : List (SourceKey × SourceSearchResult)) (k : SourceKey) :
    Option SourceSearchResult :=
  (pairs.find? (fun p => p.1 = k)).map (fun p => p.2)

/-- `search_combined` of `combined.py`. -/
def search_combined (req : CombinedSearchRequest) (env : SourceKey → Except PyStr SearchResponse) :
    CombinedSearchResponse :=
  let pairs := combinedPairs req env
  { google := combinedLookup pairs .google
    youtube := combinedLookup pairs .youtube
    books := combinedLookup pairs .books
    openlibrary := combinedLookup pairs .openlibrary
    courtlistener := combinedLookup pairs .courtlistener
    congress := combinedLookup pairs .congress
    federalregister := combinedLookup pairs .federalregister
    loc := combinedLookup pairs .loc
    unicourt := combinedLookup pairs .unicourt
    total := combinedTotal req env
    query := req.query }

/-- Read the response field belonging to a source key. -/
def getSource (r : CombinedSearchResponse) (k : SourceKey) : Option SourceSearchResult :=
  match k with
  | .google => r.google
  | .youtube => r.youtube
  | .books => r.books
  | .openlibrary => r.openlibrary
  | .courtlistener => r.courtlistener
  | .congress => r.congress
  | .federalregister => r.federalregister
  | .loc => r.loc
  | .unicourt => r.unicourt

/-- The sum of the counts of exactly the adapters that succeeded. -/
def sumOkCounts (keys : List SourceKey) (env : SourceKey → Except PyStr SearchResponse) : Nat :=
  (keys.map (fun k => match env k with | .ok r => r.count | .error _ => 0)).sum

/-! ## Chat orchestrator (`app/routers/ai/chat.py`, `chat`)

The external collaborators — Supabase client construction, the
`match_embeddings` RPC, the two table reads, the two history inserts, and
the OpenAI/Gemini completion backends — are oracles collected in `ChatEnv`.
Every oracle consultation that performs I/O is recorded in an effect list,
so "before any external call" is the statement that the effect list is
empty.  `.error` of an oracle models the corresponding Python call raising;
the `try/except` of the endpoint converts any such propagated error into a
`success=false` response. -/

inductive ChatMode
  | chat | qa | summarize
deriving DecidableEq, Repr

inductive ChatProvider
  | pgvector | gemini
deriving DecidableEq, Repr

inductive SummaryStyle
  | brief | detailed | bullet
deriving DecidableEq, Repr

def chatModeStr (m : ChatMode) : PyStr :=
  pyOfString (match m with | .chat => "chat" | .qa => "qa" | .summarize => "summarize")

def chatProviderStr (p : ChatProvider) : PyStr :=
  pyOfString (match p with | .pgvector => "pgvector" | .gemini => "gemini")

structure ChatRequest where
  message : Option PyStr
  mode : ChatMode
  provider : ChatProvider
  resource_ids : Option (List PyStr)
  session_id : Option PyStr
  model : Option PyStr
  temperature : Rat
  summary_style : SummaryStyle
deriving DecidableEq, Repr

structure SourceChunk where
  resource_id : PyStr
  title : Option PyStr
  url : Option PyStr
  snippet : PyStr
  similarity : Rat
deriving DecidableEq, Repr

structure ChatResponse where
  success : Bool
  response : Option PyStr
  sources : List SourceChunk
  mode : PyStr
  provider : PyStr
  model : PyStr
  error : Option PyStr
deriving DecidableEq, Repr

/-- A row of the `match_embeddings` RPC, with the `resource_title` and
`resource_url` keys added by the enrichment step of
`search_similar_chunks` (or by the fallback). -/
structure MatchRec where
  resource_id : PyStr
  chunk_index : Int
  chunk_text : PyStr
  similarity : Rat
  resource_title : Option PyStr
  resource_url : Option PyStr
deriving DecidableEq, Repr

/-- A row of the `lr_resources` select `id, title, url`. -/
structure MetaRec where
  id : PyStr
  title : Option PyStr
  url : Option PyStr
deriving DecidableEq, Repr

/-- A row of the `lr_resources` select `id, title, content, description,
url` (`content`/`description` may be null). -/
structure StoreRec where
  id : PyStr
  title : PyStr
  content : Option PyStr
  description : Option PyStr
  url : PyStr
deriving DecidableEq, Repr

/-- A record produced by `get_resource_content` (content resolved through
`content or description or ""`). -/
structure ResRec where
  id : PyStr
  title : PyStr
  content : PyStr
  url : PyStr
deriving DecidableEq, Repr

inductive ChatEffect
  | embedCall | rpcCall | tableCall | completionCall | insertCall
deriving DecidableEq, Repr

structure ChatEnv where
  st : Settings
  supabase_ok : Except PyStr Unit
  embedQ : PyStr → Except PyStr (List Rat)
  rpcMatch : List Rat → Rat → Nat → Option (List PyStr) → Except PyStr (List MatchRec)
  tableMeta : List PyStr → Except PyStr (List MetaRec)
  tableContent : List PyStr → Except PyStr (List StoreRec)
  completeOpenAI : PyStr → PyStr → Rat → Except PyStr PyStr
  completeGemini : PyStr → PyStr → Rat → Except PyStr PyStr
  insertUserMsg : PyStr → Except PyStr Unit
  insertAssistantMsg : PyStr → List (PyStr × Option PyStr × Rat) → Except PyStr Unit

/-- Python's f-string rendering of a possibly-`None` string value. -/
def pyFStr (s : Option PyStr) : PyStr :=
  match s with
  | some t => t
  | none => pyOfString "None"

/-- `generate_embedding` of `app/services/ai.py`: raises when the OpenAI
key is absent, otherwise one embedding call. -/
def generate_embedding (env : ChatEnv) (text : PyStr) :
    Except PyStr (List Rat) × List ChatEffect :=
  if env.st.openai_api_key = [] then
    (.error (pyOfString "OpenAI API key not configured"), [])
  else (env.embedQ text, [.embedCall])

/-- `chat_completion` of `app/services/ai.py` applied to the single user
message the endpoint sends. -/
def chat_completion_svc (env : ChatEnv) (prompt model : PyStr) (temp : Rat) :
    Except PyStr PyStr × List ChatEffect :=
  if env.st.openai_api_key = [] then
    (.error (pyOfString "OpenAI API key not configured"), [])
  else (env.completeOpenAI prompt model temp, [.completionCall])

/-- `gemini_chat_completion` of `app/services/ai.py` (the optional context
is folded into the prompt before the call). -/
def gemini_chat_completion_svc (env : ChatEnv) (prompt : PyStr) (context : Option PyStr)
    (model : PyStr) (temp : Rat) : Except PyStr PyStr × List ChatEffect :=
  if env.st.gemini_api_key = [] then
    (.error (pyOfString "Gemini API key not configured"), [])
  else
    let full_prompt :=
      match context with
      | some c =>
        if c = [] then prompt
        else pyOfString "Context:\n" ++ c ++ pyOfString "\n\n---\n\n" ++ prompt
      | none => prompt
    (env.completeGemini full_prompt model temp, [.completionCall])

/-- `build_rag_prompt` of `app/services/ai.py`; each pair is
(source label, chunk text). -/
def build_rag_prompt (question : PyStr) (sources : List (PyStr × PyStr)) : PyStr :=
  let context := pyJoin (pyOfString "\n\n")
    (sources.map (fun s => pyOfString "Source: " ++ s.1 ++ '\n' :: s.2))
  pyOfString "You are a legal research assistant. Answer the following question based on the provided sources.\n\nQuestion: "
    ++ question
    ++ pyOfString "\n\nSources:\n"
    ++ context
    ++ pyOfString "\n\nInstructions:\n- Base your answer on the provided sources\n- Cite source titles when referencing specific information\n- If the answer cannot be found in the sources, say so clearly\n- Be precise and accurate with legal terminology"

def summaryStyleInstruction (s : SummaryStyle) : PyStr :=
  pyOfString (match s with
  | .brief => "Provide a concise 2-3 paragraph summary."
  | .detailed => "Provide a comprehensive summary covering all key points."
  | .bullet => "Provide a bullet-point summary of key findings and arguments.")

/-- `build_summarize_prompt` of `app/services/ai.py`; each pair is
(source label, chunk text). -/
def build_summarize_prompt (chunks : List (PyStr × PyStr)) (style : SummaryStyle) : PyStr :=
  let context := pyJoin (pyOfString "\n\n")
    (chunks.map (fun c => pyOfString "From '" ++ c.1 ++ pyOfString "':\n" ++ c.2))
  pyOfString "Summarize the following legal document excerpts.\n\n"
    ++ summaryStyleInstruction style
    ++ pyOfString "\n\nDocuments:\n"
    ++ context
    ++ pyOfString "\n\nFocus on:\n- Key legal concepts and arguments\n- Important dates, parties, and case citations\n- Main conclusions and implications"

/-- `list(set(c["resource_id"] for c in chunks))`; Python's set order is
unspecified, the oracle receives this deterministic stand-in. -/
def dedupResourceIds (chunks : List MatchRec) : List PyStr :=
  (chunks.map (fun c => c.resource_id)).eraseDups

/-- The enrichment loop of `search_similar_chunks`: every chunk gains
`resource_title`/`resource_url` from the resource map (missing resources
contribute `None`). -/
def enrichChunks (chunks : List MatchRec) (metas : List MetaRec) : List MatchRec :=
  chunks.map (fun c =>
    match metas.find? (fun m => m.id = c.resource_id) with
    | some m => { c with resource_title := m.title, resource_url := m.url }
    | none => { c with resource_title := none, resource_url := none })

/-- `search_similar_chunks` of `chat.py`. -/
def search_similar_chunks (env : ChatEnv) (query : PyStr) (rids : Option (List PyStr))
    (lim : Nat) (thr : Rat) : Except PyStr (List MatchRec) × List ChatEffect :=
  match generate_embedding env query with
  | (.error e, effs) => (.error e, effs)
  | (.ok v, effs) =>
    match env.rpcMatch v thr lim rids with
    | .error e => (.error e, effs ++ [.rpcCall])
    | .ok chunks =>
      if chunks.isEmpty then (.ok chunks, effs ++ [.rpcCall])
      else
        match env.tableMeta (dedupResourceIds chunks) with
        | .error e => (.error e, effs ++ [.rpcCall, .tableCall])
        | .ok metas => (.ok (enrichChunks chunks metas), effs ++ [.rpcCall, .tableCall])

/-- The per-row content resolution of `get_resource_content`:
`r.get("content") or r.get("description") or ""`. -/
def resolveContentRow (r : StoreRec) : ResRec :=
  { id := r.id, title := r.title,
    content := pyOrD r.content (pyOrD r.description []), url := r.url }

/-- `get_resource_content` of `chat.py`. -/
def get_resource_content (env : ChatEnv) (ids : List PyStr) :
    Except PyStr (List ResRec) × List ChatEffect :=
  match env.tableContent ids with
  | .error e => (.error e, [.tableCall])
  | .ok rows => (.ok (rows.map resolveContentRow), [.tableCall])

/-- The fallback records built when the vector search returned nothing but
explicit resource ids were supplied: per resource, the first three
`chunk_text(content, 1000, 100)` chunks, each with the fixed sentinel
similarity `0.5`. -/
def fallbackRecs (resources : List ResRec) : List MatchRec :=
  (resources.map (fun r =>
    ((chunk_text r.content 1000 100).take 3).enum.map (fun p =>
      { resource_id := r.id
        chunk_index := (p.1 : Int)
        chunk_text := p.2
        similarity := 1/2
        resource_title := some r.title
        resource_url := some r.url }))).flatten

/-- The `sources` list the qa/chat path builds: snippet is unconditionally
the first 200 characters of the chunk text followed by `"..."`. -/
def mkSourceChunks (recs : List MatchRec) : List SourceChunk :=
  recs.map (fun s =>
    { resource_id := s.resource_id
      title := s.resource_title
      url := s.resource_url
      snippet := s.chunk_text.take 200 ++ pyOfString "..."
      similarity := s.similarity })

/-- An error `ChatResponse` (`success=false`, empty sources). -/
def chatErrResp (req : ChatRequest) (model : PyStr) (msg : PyStr) : ChatResponse :=
  { success := false, response := none, sources := [], mode := chatModeStr req.mode,
    provider := chatProviderStr req.provider, model := model, error := some msg }

/-- The outcome of a provider branch: an early returned response, or the
completion text with the sources and resolved model for the common tail. -/
inductive ChatStep
  | early (r : ChatResponse)
  | done (txt : PyStr) (sources : List SourceChunk) (model : PyStr)
deriving DecidableEq, Repr

/-- Fold a completion outcome into the branch result: a raised completion
error propagates, a completion text yields the `.done` outcome carrying the
given sources and model. -/
def completionToStep (res : Except PyStr PyStr × List ChatEffect)
    (sources : List SourceChunk) (model : PyStr) (effs : List ChatEffect) :
    Except PyStr ChatStep × List ChatEffect :=
  match res with
  | (.error e, effs2) => (.error e, effs ++ effs2)
  | (.ok txt, effs2) => (.ok (.done txt sources model), effs ++ effs2)

/-- The tail of the pgvector qa/chat branch: build sources and prompt from
the retrieval records, then complete. -/
def finishPgQA (req : ChatRequest) (env : ChatEnv) (model : PyStr) (recs : List MatchRec)
    (effs : List ChatEffect) : Except PyStr ChatStep × List ChatEffect :=
  completionToStep
    (chat_completion_svc env
      (build_rag_prompt (pyOrD req.message [])
        (recs.map (fun s => (pyFStr s.resource_title, s.chunk_text))))
      model req.temperature)
    (mkSourceChunks recs) model effs

/-- The pgvector provider branch of `chat`. -/
def runPgvector (req : ChatRequest) (env : ChatEnv) :
    Except PyStr ChatStep × List ChatEffect :=
  if env.st.openai_api_key = [] then
    (.ok (.early (chatErrResp req [] (pyOfString "OpenAI API key not configured"))), [])
  else
    let model := pyOrD req.model (pyOfString "gpt-4o-mini")
    match req.mode with
    | .summarize =>
      match get_resource_content env (req.resource_ids.getD []) with
      | (.error e, effs) => (.error e, effs)
      | (.ok resources, effs) =>
        if resources.isEmpty then
          (.ok (.early (chatErrResp req model
            (pyOfString "No resources found or no content available"))), effs)
        else
          completionToStep
            (chat_completion_svc env
              (build_summarize_prompt
                ((resources.map (fun r =>
                  ((chunk_text r.content 2000 100).take 5).map (fun t => (r.title, t)))).flatten)
                req.summary_style)
              model req.temperature)
            [] model effs
    | _ =>
      match search_similar_chunks env (pyOrD req.message []) req.resource_ids 10 (1/2) with
      | (.error e, effs) => (.error e, effs)
      | (.ok primary, effs) =>
        if primary.isEmpty && truthyOptList req.resource_ids then
          match get_resource_content env (req.resource_ids.getD []) with
          | (.error e, effs2) => (.error e, effs ++ effs2)
          | (.ok resources, effs2) =>
            finishPgQA req env model (fallbackRecs resources) (effs ++ effs2)
        else finishPgQA req env model primary effs

/-- The gemini provider branch of `chat`. -/
def runGemini (req : ChatRequest) (env : ChatEnv) :
    Except PyStr ChatStep × List ChatEffect :=
  if env.st.gemini_api_key = [] then
    (.ok (.early (chatErrResp req [] (pyOfString "Gemini API key not configured"))), [])
  else
    let model := pyOrD req.model (pyOfString "gemini-2.0-flash-exp")
    match get_resource_content env (req.resource_ids.getD []) with
    | (.error e, effs) => (.error e, effs)
    | (.ok resources, effs) =>
      match req.mode with
      | .summarize =>
        let context := pyJoin (pyOfString "\n\n---\n\n")
          (resources.map (fun r => pyOfString "## " ++ r.title ++ pyOfString "\n\n" ++ r.content))
        let prompt := pyOfString "Summarize the following documents. Style: "
          ++ (match req.summary_style with
              | .brief => pyOfString "brief"
              | .detailed => pyOfString "detailed"
              | .bullet => pyOfString "bullet")
          ++ pyOfString ".\n\n"
          ++ context
          ++ pyOfString "\n\nProvide a comprehensive summary that:\n- Identifies key legal concepts and arguments\n- Notes important dates, parties, and case citations\n- Organizes information logically"
        completionToStep (gemini_chat_completion_svc env prompt none model req.temperature)
          [] model effs
      | _ =>
        let context := pyJoin (pyOfString "\n\n---\n\n")
          (resources.map (fun r => pyOfString "## " ++ r.title ++ pyOfString " (" ++ r.url
            ++ pyOfString ")\n\n" ++ r.content))
        let prompt := pyOfString "You are a legal research assistant. Answer the following question based on the provided documents.\n\nQuestion: "
          ++ pyFStr req.message
          ++ pyOfString "\n\nInstructions:\n- Base your answer on the provided documents\n- Cite document titles when referencing specific information\n- If the answer cannot be found in the documents, say so clearly"
        completionToStep (gemini_chat_completion_svc env prompt (some context) model req.temperature)
          (resources.map (fun r =>
            { resource_id := r.id
              title := some r.title
              url := some r.url
              snippet := r.content.take 200 ++ pyOfString "..."
              similarity := (1 : Rat) }))
          model effs

/-- Fold the history-persistence outcome into the final body result: a
raised insert error propagates, otherwise the already-built success
response is returned. -/
def historyToResp (res : Except PyStr Unit × List ChatEffect) (resp : ChatResponse)
    (effs : List ChatEffect) : Except PyStr ChatResponse × List ChatEffect :=
  match res with
  | (.error e, effs2) => (.error e, effs ++ effs2)
  | (.ok _, effs2) => (.ok resp, effs ++ effs2)

/-- The history block of `chat`: when a session id is supplied, insert the
user turn then the assistant turn (with the compact source snapshot). -/
def historyStep (req : ChatRequest) (env : ChatEnv) (txt : PyStr)
    (sources : List SourceChunk) : Except PyStr Unit × List ChatEffect :=
  if truthyOptStr req.session_id then
    match env.insertUserMsg (pyOrD req.message (pyOfString "[Summarize request]")) with
    | .error e => (.error e, [.insertCall])
    | .ok _ =>
      match env.insertAssistantMsg txt
          (sources.map (fun s => (s.resource_id, s.title, s.similarity))) with
      | .error e => (.error e, [.insertCall, .insertCall])
      | .ok _ => (.ok (), [.insertCall, .insertCall])
  else (.ok (), [])

/-- The body of the `try` block of the `chat` endpoint. -/
def chatBody (req : ChatRequest) (env : ChatEnv) :
    Except PyStr ChatResponse × List ChatEffect :=
  match env.supabase_ok with
  | .error e => (.error e, [])
  | .ok _ =>
    if req.mode ≠ ChatMode.summarize ∧ truthyOptStr req.message = false then
      (.ok (chatErrResp req [] (pyOfString "Message is required for chat/qa modes")), [])
    else if req.mode = ChatMode.summarize ∧ truthyOptList req.resource_ids = false then
      (.ok (chatErrResp req [] (pyOfString "resource_ids required for summarize mode")), [])
    else
      match (match req.provider with
             | .pgvector => runPgvector req env
             | .gemini => runGemini req env) with
      | (.error e, effs) => (.error e, effs)
      | (.ok (.early r), effs) => (.ok r, effs)
      | (.ok (.done txt sources model), effs) =>
        historyToResp (historyStep req env txt sources)
          { success := true, response := some txt, sources := sources,
            mode := chatModeStr req.mode, provider := chatProviderStr req.provider,
            model := model, error := none }
          effs

/-- The `chat` endpoint of `chat.py`: the body under the enclosing
`try/except`, which converts any propagated exception into a
`success=false` response. -/
def chat (req : ChatRequest) (env : ChatEnv) : ChatResponse × List ChatEffect :=
  match chatBody req env with
  | (.ok r, effs) => (r, effs)
  | (.error e, effs) =>
    ({ success := false, response := none, sources := [], mode := chatModeStr req.mode,
       provider := chatProviderStr req.provider, model := [],
       error := some (pyOfString "Chat failed: " ++ e) }, effs)

/-! ## Concrete fixtures used by the witnesses and counterexamples -/

/-- The text of the C7 counterexample (length 30, a sentence boundary at
index 6). -/
def cycleText : PyStr := pyOfString "abcdef. ghijklmnopqrstuvwxyz12"

/-- Projection of an adapter outcome used by concrete counterexamples: the
result list of a returned response (empty for a raised exception). -/
def searchOkResults (o : Except HTTPException SearchResponse) : List SearchResult :=
  match o with
  | .ok r => r.results
  | .error _ => []

def googleOkSettings : Settings :=
  { google_api_key := pyOfString "k", google_search_engine_id := pyOfString "cx"
    youtube_api_key := pyOfString "k", courtlistener_api_token := pyOfString "k"
    congress_api_key := pyOfString "k", unicourt_client_id := pyOfString "k"
    unicourt_client_secret := pyOfString "k", openai_api_key := pyOfString "k"
    gemini_api_key := pyOfString "k" }

def googleReqSimple : GoogleSearchRequest :=
  { query := pyOfString "q", category := none, limit := 10, file_type := none }

/-- A Google item whose provider snippet is 301 characters long. -/
def longSnippetItem : GoogleItem :=
  { title := some (pyOfString "t"), link := some (pyOfString "http://x")
    snippet := some (List.replicate 301 'a'), pagemap_cse_thumbnail := none }

def googleResp301 : GoogleResp :=
  { status := 200, text := [], items := [longSnippetItem] }

def booksItemShort : BooksItem :=
  { title := some (pyOfString "Contract Law"), infoLink := some (pyOfString "http://b")
    previewLink := none, description := some (List.replicate 400 'd'), authors := [pyOfString "A"]
    publisher := none, publishedDate := none, epub_isAvailable := true
    pdf_isAvailable := false, thumbnail := none, smallThumbnail := none }

def noLinkBook : BooksItem :=
  { title := some (pyOfString "T"), infoLink := none, previewLink := none
    description := none, authors := [], publisher := none, publishedDate := none
    epub_isAvailable := false, pdf_isAvailable := false, thumbnail := none
    smallThumbnail := none }

def booksReqSimple : BaseSearchRequest :=
  { query := pyOfString "q", category := none, limit := 10 }

def booksRespNoLink : BooksResp :=
  { status := 200, text := [], items := [noLinkBook] }

def unicourtItemNoUrl : UniCourtItem :=
  { courtName := some (pyOfString "Kings County"), caseType := none, filedDate := none
    caseStatus := none, parties := [], caseName := some (pyOfString "A v B")
    caseTitle := none, caseUrl := none, caseId := some (pyOfString "C123")
    caseNumber := none, state := none }

def noCredSettings : Settings :=
  { google_api_key := [], google_search_engine_id := [], youtube_api_key := []
    courtlistener_api_token := [], congress_api_key := [], unicourt_client_id := []
    unicourt_client_secret := [], openai_api_key := [], gemini_api_key := [] }

def combinedReq3 : CombinedSearchRequest :=
  { query := pyOfString "breach of contract", category := none, file_type := none, limit := 5
    include_google := true, include_youtube := true, include_books := true
    include_openlibrary := false, include_courtlistener := false, include_congress := false
    include_federalregister := false, include_loc := false, include_unicourt := false
    court := none, search_type := none, date_from := none, date_to := none
    state := none, case_type := none }

def sampleResult (n : Nat) : SearchResult :=
  { title := pyOfString "r", url := pyOfString "http://r", snippet := none
    source_type := .website, thumbnail := none, metadata := none }

/-- The concrete adapter outcomes for the C1 witness: google returns 3
results, youtube raises, books returns 1 result. -/
def combinedEnv3 : SourceKey → Except PyStr SearchResponse
  | .google => .ok { results := [sampleResult 0, sampleResult 1, sampleResult 2], count := 3
                     total := none, query := pyOfString "breach of contract", error := none }
  | .youtube => .error (pyOfString "boom")
  | .books => .ok { results := [sampleResult 3], count := 1, total := none
                    query := pyOfString "breach of contract law", error := none }
  | _ => .error (pyOfString "not invoked")

def storeRowR1 : StoreRec :=
  { id := pyOfString "r1"
    title := pyOfString "Title"
    content := some (pyOfString "hello world")
    description := none
    url := pyOfString "http://r1" }

def chatEnvFixture : ChatEnv :=
  { st := googleOkSettings
    supabase_ok := .ok ()
    embedQ := fun _ => .ok []
    rpcMatch := fun _ _ _ _ => .ok []
    tableMeta := fun _ => .ok []
    tableContent := fun _ => .ok [storeRowR1]
    completeOpenAI := fun _ _ _ => .ok (pyOfString "answer")
    completeGemini := fun _ _ _ => .ok (pyOfString "g")
    insertUserMsg := fun _ => .ok ()
    insertAssistantMsg := fun _ _ => .ok () }

def chatReqNoMsg : ChatRequest :=
  { message := none, mode := .qa, provider := .pgvector, resource_ids := none
    session_id := none, model := none, temperature := 7/10, summary_style := .detailed }

def chatReqQA : ChatRequest :=
  { message := some (pyOfString "what is consideration"), mode := .qa
    provider := .pgvector, resource_ids := some [pyOfString "r1"], session_id := none
    model := none, temperature := 7/10, summary_style := .detailed }

/-! ## Shared lemmas -/

theorem chunkSeps_len : ∀ sep ∈ chunkSeps, sep.length = 2 := by decide

/-- A separator hit accepted by the `for sep` loop always lies strictly past
half the window, so the resulting window end offset is at least
`chunk_size / 2 + 3`. -/
theorem findSepEnd_ge {window : PyStr} {cs : Nat} {seps : List PyStr} {d : Nat}
    (hall : ∀ sep ∈ seps, sep.length = 2)
    (h : findSepEnd window cs seps = some d) : cs / 2 + 3 ≤ d := by
  induction seps with
  | nil => simp [findSepEnd] at h
  | cons sep rest ih =>
    unfold findSepEnd at h
    by_cases hc : pyRfind window sep > ((cs / 2 : Nat) : Int)
    · simp only [hc, if_true, Option.some.injEq] at h
      have hlen : sep.length = 2 := hall sep (by simp)
      omega
    · simp only [hc, if_false] at h
      exact ih (fun s hs => hall s (by simp [hs])) h

/-- Under `overlap ≤ chunk_size / 2 + 2` (and `overlap < chunk_size`), every
iteration of the `chunk_text` loop advances the window start by at least one
character. -/
theorem chunkNextStart_gt (text : PyStr) (cs ov : Nat) (start : Int)
    (hovcs : ov < cs) (hhalf : ov ≤ cs / 2 + 2) :
    start + 1 ≤ chunkNextStart text cs ov start := by
  unfold chunkNextStart chunkEnd
  by_cases hlt : (start + (cs : Int)) < ((text.length : Nat) : Int)
  · simp only [hlt, if_true]
    rcases hfs : findSepEnd (pySlice text start (start + (cs : Int))) cs chunkSeps with _ | d
    · simp only [hfs]
      omega
    · simp only [hfs]
      have hge := findSepEnd_ge chunkSeps_len hfs
      omega
  · simp only [hlt, if_false]
    omega

/-- The loop's window end always exceeds the window start. -/
theorem chunkEnd_gt (text : PyStr) (cs ov : Nat) (start : Int)
    (hovcs : ov < cs) (hhalf : ov ≤ cs / 2 + 2) :
    start + 1 ≤ chunkEnd text cs start := by
  have := chunkNextStart_gt text cs ov start hovcs hhalf
  unfold chunkNextStart at this
  omega

/-- The visited window starts grow at least linearly. -/
theorem chunkIter_ge (text : PyStr) (cs ov : Nat)
    (hovcs : ov < cs) (hhalf : ov ≤ cs / 2 + 2) (n : Nat) :
    (n : Int) ≤ chunkIter text cs ov n := by
  induction n with
  | zero => simp [chunkIter]
  | succ n ih =>
    have h := chunkNextStart_gt text cs ov (chunkIter text cs ov n) hovcs hhalf
    unfold chunkIter
    push_cast
    omega

/-- Once a chunk is accumulated it is never dropped. -/
theorem chunkLoop_acc_ne_nil (text : PyStr) (cs ov : Nat) :
    ∀ (fuel : Nat) (start : Int) (acc : List PyStr), acc ≠ [] →
      chunkLoop text cs ov fuel start acc ≠ [] := by
  intro fuel
  induction fuel with
  | zero => intro start acc h; simpa [chunkLoop] using h
  | succ fuel ih =>
    intro start acc h
    unfold chunkLoop
    by_cases hlt : start < ((text.length : Nat) : Int)
    · simp only [hlt, if_true]
      apply ih
      split
      · exact h
      · simp
    · simpa [hlt] using h

/-- With enough fuel the loop result does not depend on the fuel: the fuel
embedding computes the Python loop. -/
theorem chunkLoop_fuel_stable (text : PyStr) (cs ov : Nat)
    (hovcs : ov < cs) (hhalf : ov ≤ cs / 2 + 2) :
    ∀ (f1 f2 : Nat) (start : Int) (acc : List PyStr),
      ((text.length : Int) - start ≤ (f1 : Int)) → f1 ≤ f2 →
      chunkLoop text cs ov f1 start acc = chunkLoop text cs ov f2 start acc := by
  intro f1
  induction f1 with
  | zero =>
    intro f2 start acc hge _
    have hnlt : ¬ (start < ((text.length : Nat) : Int)) := by omega
    cases f2 with
    | zero => rfl
    | succ f2 => simp [chunkLoop, hnlt]
  | succ f1 ih =>
    intro f2 start acc hge hle
    cases f2 with
    | zero => omega
    | succ f2 =>
      by_cases hlt : start < ((text.length : Nat) : Int)
      · have hnext := chunkNextStart_gt text cs ov start hovcs hhalf
        unfold chunkNextStart at hnext
        simp only [chunkLoop, hlt, if_true]
        exact ih f2 (chunkEnd text cs start - (ov : Int)) _ (by omega) (by omega)
      · simp [chunkLoop, hlt]

/-! ## C3 -/

/-- C3: under the default options `clean_content` is NOT idempotent.  The
heading rule `re.sub(r"\n(#{1,6})\s*", r"\n\n\1 ", ...)` fires again on its
own output: one application of `clean_content` to `"a\n# b"` yields
`"a\n\n# b"`, a second application inserts a further newline before the
heading, yielding `"a\n\n\n# b"`.  This contradicts the claimed
`clean_content(clean_content(x)) == clean_content(x)`. -/
theorem C3_clean_content_not_idempotent :
    clean_content (pyOfString "a\n# b") defaultCleanOptions = pyOfString "a\n\n# b"
    ∧ clean_content (clean_content (pyOfString "a\n# b") defaultCleanOptions) defaultCleanOptions
        = pyOfString "a\n\n\n# b"
    ∧ clean_content (clean_content (pyOfString "a\n# b") defaultCleanOptions) defaultCleanOptions
        ≠ clean_content (pyOfString "a\n# b") defaultCleanOptions := by
  exact ⟨by decide, by decide, by decide⟩

/-! ## C7 -/

/-- C7 counterexample: with `chunk_size = 10` and `overlap = 9` — parameters
satisfying `0 < overlap < chunk_size` — the sentence boundary found past
`chunk_size/2` makes the next window start `0 - 1 = -1 < 0`: the window
start DECREASES, and after two iterations it is back at `0`, strictly below
the text length, so the loop never terminates.  This refutes the claim that
`0 < overlap < chunk_size` suffices for the window start to strictly
increase until it reaches the text length. -/
theorem C7_counterexample_start_cycles :
    chunkNextStart cycleText 10 9 0 = -1
    ∧ chunkNextStart cycleText 10 9 (-1) = 0
    ∧ chunkIter cycleText 10 9 2 = 0
    ∧ (0 : Int) < (cycleText.length : Int)
    ∧ 0 < 9 ∧ 9 < 10 := by
  exact ⟨by decide, by decide, by decide, by decide, by decide, by decide⟩

/-- C7 (amended): termination needs the stronger guard
`overlap ≤ chunk_size/2 + 2` (satisfied by the defaults `1000`/`100`): then
every iteration strictly advances the window start, the start sequence
reaches the text length, and the fuelled loop embedding is stable in the
fuel — `chunk_text` computes the terminating Python loop. -/
theorem C7_chunk_text_terminates (text : PyStr) (cs ov : Nat)
    (hov : 0 < ov) (hovcs : ov < cs) (hhalf : ov ≤ cs / 2 + 2) :
    (∀ start : Int, start + 1 ≤ chunkNextStart text cs ov start)
    ∧ (∃ n : Nat, (text.length : Int) ≤ chunkIter text cs ov n)
    ∧ (∀ fuel : Nat, text.length ≤ fuel →
        chunkLoop text cs ov fuel 0 [] = chunkLoop text cs ov (text.length + 1) 0 []) := by
  refine ⟨fun start => chunkNextStart_gt text cs ov start hovcs hhalf,
    ⟨text.length, by exact_mod_cast chunkIter_ge text cs ov hovcs hhalf text.length⟩,
    fun fuel hf => ?_⟩
  by_cases hle : fuel ≤ text.length + 1
  · exact chunkLoop_fuel_stable text cs ov hovcs hhalf fuel (text.length + 1) 0 []
      (by omega) hle
  · exact (chunkLoop_fuel_stable text cs ov hovcs hhalf (text.length + 1) fuel 0 []
      (by omega) (by omega)).symm

theorem C7_chunk_text_terminates_witness :
    (0 < 1 ∧ 1 < 2 ∧ 1 ≤ 2 / 2 + 2)
    ∧ ((∀ start : Int, start + 1 ≤ chunkNextStart (pyOfString "ab") 2 1 start)
       ∧ (∃ n : Nat, ((pyOfString "ab").length : Int) ≤ chunkIter (pyOfString "ab") 2 1 n)
       ∧ (∀ fuel : Nat, (pyOfString "ab").length ≤ fuel →
           chunkLoop (pyOfString "ab") 2 1 fuel 0 []
             = chunkLoop (pyOfString "ab") 2 1 ((pyOfString "ab").length + 1) 0 [])) :=
  ⟨by decide,
   C7_chunk_text_terminates (pyOfString "ab") 2 1 (by decide) (by decide) (by decide)⟩

/-! ## C8 -/

/-- C8 counterexample: for the non-empty input `" a "` (shorter than the
chunk size) `chunk_text` returns the text UNtrimmed, not the trimmed text
the claim asserts. -/
theorem C8_counterexample_untrimmed :
    chunk_text (pyOfString " a ") 1000 100 = [pyOfString " a "]
    ∧ chunk_text (pyOfString " a ") 1000 100 ≠ [pyStrip (pyOfString " a ")] := by
  exact ⟨by decide, by decide⟩

/-- C8 (amended): `chunk_text` returns the empty sequence on empty text, and
for non-empty text shorter than `chunk_size` it returns the one-element
sequence containing the text ITSELF — the short-input path does not trim
(trimming happens only for chunks emitted by the sliding-window loop). -/
theorem C8_chunk_text_small_input :
    (∀ cs ov : Nat, chunk_text [] cs ov = [])
    ∧ (∀ (text : PyStr) (cs ov : Nat), text ≠ [] → text.length < cs →
        chunk_text text cs ov = [text]) := by
  constructor
  · intro cs ov; simp [chunk_text]
  · intro text cs ov hne hlt
    simp [chunk_text, hne, hlt]

theorem C8_chunk_text_small_input_witness :
    chunk_text [] 1000 100 = []
    ∧ (pyOfString "hi" ≠ [] ∧ (pyOfString "hi").length < 1000)
    ∧ chunk_text (pyOfString "hi") 1000 100 = [pyOfString "hi"] :=
  ⟨C8_chunk_text_small_input.1 1000 100, ⟨by decide, by decide⟩,
   C8_chunk_text_small_input.2 (pyOfString "hi") 1000 100 (by decide) (by decide)⟩

/-! ## Truncation and url lemmas -/

theorem leadsWith_append_self (a b : PyStr) : leadsWith a (a ++ b) = true := by
  induction a with
  | nil => simp [leadsWith]
  | cons c t ih => simp [leadsWith, ih]

theorem truncateSnippet_le (s : PyStr) : (truncateSnippet s).length ≤ 300 := by
  unfold truncateSnippet
  split
  · simp [pyOfString]
  · omega

/-- The unicourt snippet after the `or "No additional details available"`
default also stays within 300 characters. -/
theorem truncateOrDefault_le (s : PyStr) :
    (if truncateSnippet s = [] then pyOfString "No additional details available"
     else truncateSnippet s).length ≤ 300 := by
  split
  · decide
  · exact truncateSnippet_le s

theorem truncateSnippet_long (s : PyStr) (h : 300 < s.length) :
    truncateSnippet s = s.take 297 ++ pyOfString "..."
    ∧ (truncateSnippet s).length = 300
    ∧ endsWithSub (truncateSnippet s) (pyOfString "...") = true := by
  have he : truncateSnippet s = s.take 297 ++ pyOfString "..." := by
    unfold truncateSnippet
    simp [h]
  refine ⟨he, ?_, ?_⟩
  · rw [he]
    simp [pyOfString]
    omega
  · rw [he]
    unfold endsWithSub
    rw [List.reverse_append]
    exact leadsWith_append_self (pyOfString "...").reverse (s.take 297).reverse

theorem pyOrD_ne_nil (a : Option PyStr) (d : PyStr) (hd : d ≠ []) : pyOrD a d ≠ [] := by
  unfold pyOrD
  rcases a with _ | s
  · exact hd
  · by_cases hs : s = [] <;> simp [hs, hd]

/-! ## C5 -/

/-- C5 counterexample: `search_google` passes the provider snippet through
with NO truncation — a 301-character provider snippet is emitted with
length 301, not 300, falsifying the claim that every adapter truncates
over-long snippets to 297 + "..." (the same holds for the youtube and
openlibrary adapters, which also never truncate). -/
theorem C5_counterexample_google_snippet_not_truncated :
    (searchOkResults (search_google googleOkSettings googleReqSimple googleResp301).1).map
        (fun r => r.snippet.map List.length) = [some 301] := by decide

/-- C5 (amended): the truncation invariant holds exactly for the adapters
that build composite snippets — books, courtlistener, congress, unicourt
(and federalregister/loc, identical in the source) — each applies
`snippet[:297] + "..."` when over 300 characters, so their emitted snippets
never exceed 300 characters, and any input snippet longer than 300 becomes
exactly 297 characters plus the 3-character ellipsis; google and youtube
pass provider snippets through and openlibrary composes without truncation,
so those can emit snippets longer than 300. -/
theorem C5_snippet_truncation :
    (∀ s : PyStr, (truncateSnippet s).length ≤ 300)
    ∧ (∀ s : PyStr, 300 < s.length →
        truncateSnippet s = s.take 297 ++ pyOfString "..."
        ∧ (truncateSnippet s).length = 300
        ∧ endsWithSub (truncateSnippet s) (pyOfString "...") = true)
    ∧ (∀ (items : List BooksItem), ∀ r ∈ booksResults items,
        ∀ s, r.snippet = some s → s.length ≤ 300)
    ∧ (∀ (items : List CLItem), ∀ r ∈ courtListenerResults items,
        ∀ s, r.snippet = some s → s.length ≤ 300)
    ∧ (∀ (items : List CongressItem), ∀ r ∈ congressResults items,
        ∀ s, r.snippet = some s → s.length ≤ 300)
    ∧ (∀ (items : List UniCourtItem) (lim : Nat), ∀ r ∈ unicourtResults items lim,
        ∀ s, r.snippet = some s → s.length ≤ 300) := by
  refine ⟨truncateSnippet_le, truncateSnippet_long, ?_, ?_, ?_, ?_⟩
  · intro items r hr s hs
    simp only [booksResults, List.mem_map] at hr
    obtain ⟨it, _, rfl⟩ := hr
    simp only [booksResult, Option.some.injEq] at hs
    rw [← hs]
    exact truncateSnippet_le _
  · intro items r hr s hs
    simp only [courtListenerResults, List.mem_map] at hr
    obtain ⟨it, _, rfl⟩ := hr
    simp only [courtListenerResult, Option.some.injEq] at hs
    rw [← hs]
    exact truncateSnippet_le _
  · intro items r hr s hs
    simp only [congressResults, List.mem_map] at hr
    obtain ⟨it, _, rfl⟩ := hr
    simp only [congressResult, Option.some.injEq] at hs
    rw [← hs]
    exact truncateSnippet_le _
  · intro items lim r hr s hs
    simp only [unicourtResults, List.mem_map] at hr
    obtain ⟨it, _, rfl⟩ := hr
    simp only [unicourtResult, Option.some.injEq] at hs
    rw [← hs]
    exact truncateOrDefault_le _

theorem C5_snippet_truncation_witness :
    (300 < (List.replicate 301 'b' : PyStr).length
     ∧ (truncateSnippet (List.replicate 301 'b')).length = 300
     ∧ endsWithSub (truncateSnippet (List.replicate 301 'b')) (pyOfString "...") = true)
    ∧ (∀ r ∈ booksResults [booksItemShort], ∀ s, r.snippet = some s → s.length ≤ 300) :=
  ⟨⟨by decide, (C5_snippet_truncation.2.1 (List.replicate 301 'b') (by decide)).2.1,
    (C5_snippet_truncation.2.1 (List.replicate 301 'b') (by decide)).2.2⟩,
   C5_snippet_truncation.2.2.1 [booksItemShort]⟩

/-! ## C6 -/

/-- C6 counterexample: when the Google Books provider omits both `infoLink`
and `previewLink`, `search_books` emits a `SearchResult` whose url is the
EMPTY string (the or-chain bottoms out at `""`), falsifying the claim that
every adapter synthesizes a non-empty url (search_google likewise defaults
to `""` for a missing link). -/
theorem C6_counterexample_books_empty_url :
    (searchOkResults (search_books googleOkSettings booksReqSimple booksRespNoLink).1).map
        (fun r => r.url) = [[]] := by decide

/-- C6 (amended): the non-empty-url invariant holds for the adapters that
synthesize urls from identifiers — unicourt
(`caseUrl or "https://unicourt.com/case/{caseId}"`), courtlistener
(site root + relative url) and congress (congress.gov bill url), as well as
youtube/openlibrary/loc in the source — but NOT for books and google, which
fall back to the empty string when the provider omits the link. -/
theorem C6_url_synthesis :
    (∀ (items : List UniCourtItem) (lim : Nat), ∀ r ∈ unicourtResults items lim, r.url ≠ [])
    ∧ (∀ (items : List CLItem), ∀ r ∈ courtListenerResults items,
        r.url ≠ [] ∧ leadsWith (pyOfString "https://www.courtlistener.com") r.url = true)
    ∧ (∀ (items : List CongressItem), ∀ r ∈ congressResults items, r.url ≠ []) := by
  refine ⟨?_, ?_, ?_⟩
  · intro items lim r hr
    simp only [unicourtResults, List.mem_map] at hr
    obtain ⟨it, _, rfl⟩ := hr
    simp only [unicourtResult]
    exact pyOrD_ne_nil _ _ (by simp [pyOfString])
  · intro items r hr
    simp only [courtListenerResults, List.mem_map] at hr
    obtain ⟨it, _, rfl⟩ := hr
    constructor
    · simp [courtListenerResult, pyOfString]
    · exact leadsWith_append_self _ _
  · intro items r hr
    simp only [congressResults, List.mem_map] at hr
    obtain ⟨it, _, rfl⟩ := hr
    simp [congressResult, pyOfString]

theorem C6_url_synthesis_witness :
    (∀ r ∈ unicourtResults [unicourtItemNoUrl] 25, r.url ≠ [])
    ∧ (unicourtResults [unicourtItemNoUrl] 25).map (fun r => r.url)
        = [pyOfString "https://unicourt.com/case/C123"] :=
  ⟨C6_url_synthesis.1 [unicourtItemNoUrl] 25, by decide⟩

/-! ## C2 -/

/-- C2 counterexample: with absent credentials `search_google` RAISES
`HTTPException(500)` — it does not return a `SearchResponse` carrying an
error string; likewise a non-2xx provider status makes it raise instead of
returning an error-carrying response.  This falsifies the
never-raise/return-config-error claim for the adapters. -/
theorem C2_counterexample_google_raises :
    search_google noCredSettings googleReqSimple googleResp301
      = (.error { status_code := 500, detail := pyOfString "Google API credentials not configured" },
         false)
    ∧ (search_google googleOkSettings googleReqSimple
        { status := 503, text := pyOfString "down", items := [] }).1
      = .error { status_code := 503, detail := pyOfString "Google Search API error: down" } := by
  exact ⟨rfl, rfl⟩

/-- C2 (amended): the adapters RAISE `HTTPException` on provider-reported
non-2xx errors (google, courtlistener, unicourt, congress for statuses
other than 401/403, and likewise the remaining adapters in the source), and
google raises a 500 configuration `HTTPException` when credentials are
absent — in both cases without returning a `SearchResponse`; error-carrying
responses are produced only by unicourt for absent credentials (before any
external call) and by congress for a 401/403 status.  Raised exceptions are
converted to zero-result entries by the aggregator, not by the adapters. -/
theorem C2_adapter_error_translation :
    (∀ (st : Settings) (req : GoogleSearchRequest) (resp : GoogleResp),
        st.google_api_key = [] ∨ st.google_search_engine_id = [] →
        search_google st req resp
          = (.error { status_code := 500,
                      detail := pyOfString "Google API credentials not configured" }, false))
    ∧ (∀ (st : Settings) (req : GoogleSearchRequest) (resp : GoogleResp),
        st.google_api_key ≠ [] → st.google_search_engine_id ≠ [] → resp.status ≠ 200 →
        (search_google st req resp).1
          = .error { status_code := resp.status,
                     detail := pyOfString "Google Search API error: " ++ resp.text })
    ∧ (∀ (st : Settings) (req : CourtListenerSearchRequest) (resp : CLResp),
        resp.status ≠ 200 →
        (search_courtlistener st req resp).1
          = .error { status_code := resp.status,
                     detail := pyOfString "CourtListener API error: " ++ resp.text })
    ∧ (∀ (st : Settings) (req : UniCourtSearchRequest) (tok : Option PyStr)
          (resp : UniCourtResp),
        st.unicourt_client_id = [] ∨ st.unicourt_client_secret = [] →
        search_unicourt st req tok resp
          = (.ok { results := [], count := 0, total := some 0, query := pyOrD req.query [],
                   error := some (pyOfString "UniCourt not configured. Add UNICOURT_CLIENT_ID and UNICOURT_CLIENT_SECRET.") },
             false))
    ∧ (∀ (st : Settings) (req : BaseSearchRequest) (resp : CongressResp),
        resp.status = 401 ∨ resp.status = 403 →
        (search_congress st req resp).1
          = .ok { results := [], count := 0, total := none,
                  query := categoryQuery req.query req.category,
                  error := some (pyOfString "Congress.gov API key required. Get one free at api.congress.gov") }) := by
  refine ⟨?_, ?_, ?_, ?_, ?_⟩
  · intro st req resp h
    unfold search_google
    rw [if_pos h]
  · intro st req resp h1 h2 h3
    unfold search_google
    rw [if_neg (by tauto)]
    simp [h3]
  · intro st req resp h
    unfold search_courtlistener
    simp [h]
  · intro st req tok resp h
    unfold search_unicourt
    rw [if_pos h]
  · intro st req resp h
    unfold search_congress
    rw [if_pos h]

theorem C2_adapter_error_translation_witness :
    (noCredSettings.google_api_key = [] ∨ noCredSettings.google_search_engine_id = [])
    ∧ search_google noCredSettings googleReqSimple googleResp301
        = (.error { status_code := 500,
                    detail := pyOfString "Google API credentials not configured" }, false)
    ∧ search_unicourt noCredSettings
        { query := some (pyOfString "q"), state := none, case_type := none, party_name := none
          attorney_name := none, judge_name := none, case_number := none, date_from := none
          date_to := none, limit := 25, page := 1 } none
        { status := 200, text := [], cases := [], totalCount := none, totalResults := none }
        = (.ok { results := [], count := 0, total := some 0, query := pyOfString "q",
                 error := some (pyOfString "UniCourt not configured. Add UNICOURT_CLIENT_ID and UNICOURT_CLIENT_SECRET.") },
           false)
    ∧ (search_congress noCredSettings booksReqSimple
         { status := 403, text := [], bills := [], pagination_count := none }).1
        = .ok { results := [], count := 0, total := none, query := pyOfString "q",
                error := some (pyOfString "Congress.gov API key required. Get one free at api.congress.gov") } :=
  ⟨Or.inl rfl,
   C2_adapter_error_translation.1 noCredSettings googleReqSimple googleResp301 (Or.inl rfl),
   C2_adapter_error_translation.2.2.2.1 noCredSettings _ none _ (Or.inl rfl),
   C2_adapter_error_translation.2.2.2.2 noCredSettings booksReqSimple _ (Or.inr rfl)⟩

/-! ## C1 -/

theorem combinedLookup_map (keys : List SourceKey) (f : SourceKey → SourceSearchResult)
    (k : SourceKey) :
    combinedLookup (keys.map (fun x => (x, f x))) k
      = if k ∈ keys then some (f k) else none := by
  induction keys with
  | nil => simp [combinedLookup]
  | cons a rest ih =>
    unfold combinedLookup at ih ⊢
    by_cases hak : a = k
    · subst hak
      simp only [List.map_cons]
      rw [List.find?_cons_of_pos _ (by simp)]
      simp
    · simp only [List.map_cons]
      rw [List.find?_cons_of_neg _ (by simp [hak])]
      rw [ih]
      have hmem : (k ∈ a :: rest) ↔ (k ∈ rest) := by
        constructor
        · intro h
          rcases List.mem_cons.mp h with h1 | h2
          · exact absurd h1.symm hak
          · exact h2
        · intro h
          exact List.mem_cons_of_mem a h
      by_cases hm : k ∈ rest
      · rw [if_pos hm, if_pos (hmem.mpr hm)]
      · rw [if_neg hm, if_neg (fun hc => hm (hmem.mp hc))]

theorem getSource_search_combined (req : CombinedSearchRequest)
    (env : SourceKey → Except PyStr SearchResponse) (k : SourceKey) :
    getSource (search_combined req env) k = combinedLookup (combinedPairs req env) k := by
  cases k <;> rfl

theorem foldl_counts (env : SourceKey → Except PyStr SearchResponse) :
    ∀ (keys : List SourceKey) (acc : Nat),
      keys.foldl (fun a k => match env k with | .error _ => a | .ok r => a + r.count) acc
        = acc + sumOkCounts keys env := by
  intro keys
  induction keys with
  | nil => intro acc; simp [sumOkCounts]
  | cons a rest ih =>
    intro acc
    rcases h : env a with e | r
    · simp only [List.foldl_cons, h]
      rw [ih]
      simp [sumOkCounts, h]
    · simp only [List.foldl_cons, h]
      rw [ih]
      simp only [sumOkCounts, List.map_cons, List.sum_cons, h]
      exact Nat.add_assoc acc r.count _

/-- C1: failure isolation of `search_combined` — whenever at least one
source is enabled and any enabled adapter's task resolves to an exception,
the combined response still has an entry for EVERY enabled source key, the
failed source's entry is the zero-result `SourceSearchResult` (empty
results, count 0), and `total` is the sum of the counts of exactly the
adapters that succeeded. -/
theorem C1_search_combined_failure_isolation
    (req : CombinedSearchRequest) (env : SourceKey → Except PyStr SearchResponse)
    (k : SourceKey) (e : PyStr) (hk : k ∈ enabledKeys req) (he : env k = .error e) :
    (∀ k2 ∈ enabledKeys req, ∃ entry, getSource (search_combined req env) k2 = some entry)
    ∧ getSource (search_combined req env) k = some { results := [], count := 0 }
    ∧ (search_combined req env).total = sumOkCounts (enabledKeys req) env := by
  refine ⟨fun k2 hk2 => ?_, ?_, ?_⟩
  · rw [getSource_search_combined]
    unfold combinedPairs
    rw [combinedLookup_map, if_pos hk2]
    exact ⟨_, rfl⟩
  · rw [getSource_search_combined]
    unfold combinedPairs
    rw [combinedLookup_map, if_pos hk]
    simp [combinedEntry, he]
  · show combinedTotal req env = _
    unfold combinedTotal
    rw [foldl_counts]
    simp

theorem C1_search_combined_failure_isolation_witness :
    (SourceKey.youtube ∈ enabledKeys combinedReq3
     ∧ combinedEnv3 SourceKey.youtube = .error (pyOfString "boom"))
    ∧ ((∀ k2 ∈ enabledKeys combinedReq3,
          ∃ entry, getSource (search_combined combinedReq3 combinedEnv3) k2 = some entry)
       ∧ getSource (search_combined combinedReq3 combinedEnv3) SourceKey.youtube
           = some { results := [], count := 0 }
       ∧ (search_combined combinedReq3 combinedEnv3).total
           = sumOkCounts (enabledKeys combinedReq3) combinedEnv3)
    ∧ (search_combined combinedReq3 combinedEnv3).total = 4 :=
  ⟨⟨by decide, rfl⟩,
   C1_search_combined_failure_isolation combinedReq3 combinedEnv3 SourceKey.youtube
     (pyOfString "boom") (by decide) rfl,
   by decide⟩

/-! ## Chunk coverage: a non-whitespace character yields a chunk -/

theorem mem_dropWhile_of_not {p : Char → Bool} {c : Char} (hc : p c = false) :
    ∀ {l : PyStr}, c ∈ l → c ∈ l.dropWhile p := by
  intro l hl
  induction l with
  | nil => simp at hl
  | cons x t ih =>
    rw [List.dropWhile_cons]
    by_cases hx : p x = true
    · simp only [hx, if_true]
      apply ih
      rcases List.mem_cons.mp hl with h1 | h2
      · subst h1
        rw [hc] at hx
        exact absurd hx (by simp)
      · exact h2
    · simp only [hx, if_false]
      exact hl

theorem pyStrip_mem {s : PyStr} {c : Char} (hc : isPySpace c = false) (hm : c ∈ s) :
    c ∈ pyStrip s := by
  unfold pyStrip
  have h1 : c ∈ s.dropWhile isPySpace := mem_dropWhile_of_not hc hm
  have h2 : c ∈ (s.dropWhile isPySpace).reverse := List.mem_reverse.mpr h1
  exact List.mem_reverse.mpr (mem_dropWhile_of_not hc h2)

theorem pyStrip_ne_nil {s : PyStr} {c : Char} (hc : isPySpace c = false) (hm : c ∈ s) :
    pyStrip s ≠ [] := by
  intro h
  have := pyStrip_mem hc hm
  rw [h] at this
  simp at this

/-- A character of the text whose index lies inside the (clamped) slice
window belongs to the slice. -/
theorem mem_pySlice {text : PyStr} {i : Nat} {start e : Int}
    (h0 : 0 ≤ start) (hsi : start ≤ (i : Int)) (hie : (i : Int) < e)
    (hil : i < text.length) :
    text[i] ∈ pySlice text start e := by
  unfold pySlice pyIdx
  have hs0 : ¬ (start < 0) := by omega
  have he0 : ¬ (e < 0) := by omega
  rw [if_neg hs0, if_neg he0]
  have hsn : start.toNat ≤ i := by omega
  have hen : i < e.toNat := by omega
  have ha : min start.toNat text.length = start.toNat := by omega
  rw [ha]
  have hb : i < min e.toNat text.length := by omega
  have hlen : ((text.take (min e.toNat text.length)).drop start.toNat).length
      = min e.toNat text.length - start.toNat := by
    simp [List.length_drop, List.length_take]
  have hj : i - start.toNat < ((text.take (min e.toNat text.length)).drop start.toNat).length := by
    omega
  have hval : ((text.take (min e.toNat text.length)).drop start.toNat)[i - start.toNat] = text[i] := by
    rw [List.getElem_drop]
    have hidx : start.toNat + (i - start.toNat) = i := by omega
    simp only [hidx]
    rw [List.getElem_take]
  rw [← hval]
  exact List.getElem_mem hj

theorem chunkLoop_ne_nil (text : PyStr) (cs ov : Nat)
    (hovcs : ov < cs) (hhalf : ov ≤ cs / 2 + 2) :
    ∀ (fuel : Nat) (start : Int) (acc : List PyStr) (i : Nat) (hil : i < text.length),
      0 ≤ start → start ≤ (i : Int) → isPySpace (text[i]) = false →
      ((text.length : Int) - start ≤ (fuel : Int)) →
      chunkLoop text cs ov fuel start acc ≠ [] := by
  intro fuel
  induction fuel with
  | zero =>
    intro start acc i hil h0 hsi hw hge
    exfalso
    have : (i : Int) < (text.length : Int) := by exact_mod_cast hil
    omega
  | succ fuel ih =>
    intro start acc i hil h0 hsi hw hge
    have hilz : (i : Int) < (text.length : Int) := by exact_mod_cast hil
    have hlt : start < ((text.length : Nat) : Int) := by omega
    have hnext := chunkNextStart_gt text cs ov start hovcs hhalf
    unfold chunkNextStart at hnext
    unfold chunkLoop
    rw [if_pos hlt]
    by_cases hcase : (i : Int) < chunkEnd text cs start
    · have hmem := mem_pySlice h0 hsi hcase hil
      have hne := pyStrip_ne_nil hw hmem
      rw [if_neg hne]
      exact chunkLoop_acc_ne_nil text cs ov fuel _ _ (by simp)
    · exact ih (chunkEnd text cs start - (ov : Int)) _ i hil (by omega) (by omega) hw (by omega)

/-- `chunk_text` never returns the empty sequence when the text contains a
non-whitespace character (and the parameters satisfy the termination
guard, as the defaults do). -/
theorem chunk_text_ne_nil (text : PyStr) (cs ov : Nat)
    (hovcs : ov < cs) (hhalf : ov ≤ cs / 2 + 2)
    (h : ∃ c ∈ text, isPySpace c = false) :
    chunk_text text cs ov ≠ [] := by
  obtain ⟨c, hc, hw⟩ := h
  have hne : text ≠ [] := by
    intro h0
    rw [h0] at hc
    simp at hc
  unfold chunk_text
  rw [if_neg hne]
  by_cases hlt : text.length < cs
  · simp [hlt]
  · rw [if_neg hlt]
    obtain ⟨i, hil, heq⟩ := List.mem_iff_getElem.mp hc
    rw [← heq] at hw
    exact chunkLoop_ne_nil text cs ov hovcs hhalf (text.length + 1) 0 [] i hil
      (by omega) (by omega) hw (by push_cast; omega)

/-! ## Fallback record lemmas -/

theorem fallbackRecs_similarity {rs : List ResRec} :
    ∀ s ∈ fallbackRecs rs, s.similarity = 1/2 := by
  intro s hs
  simp only [fallbackRecs, List.mem_flatten, List.mem_map] at hs
  obtain ⟨l, ⟨r, hr, rfl⟩, hsl⟩ := hs
  simp only [List.mem_map] at hsl
  obtain ⟨p, hp, rfl⟩ := hsl
  rfl

theorem fallbackRecs_resource_id {rs : List ResRec} :
    ∀ s ∈ fallbackRecs rs, s.resource_id ∈ rs.map ResRec.id := by
  intro s hs
  simp only [fallbackRecs, List.mem_flatten, List.mem_map] at hs
  obtain ⟨l, ⟨r, hr, rfl⟩, hsl⟩ := hs
  simp only [List.mem_map] at hsl
  obtain ⟨p, hp, rfl⟩ := hsl
  simp only [List.mem_map]
  exact ⟨r, hr, rfl⟩

theorem fallbackRecs_ne_nil {rs : List ResRec}
    (h : ∃ r ∈ rs, ∃ ch ∈ r.content, isPySpace ch = false) : fallbackRecs rs ≠ [] := by
  obtain ⟨r, hr, hex⟩ := h
  have hct := chunk_text_ne_nil r.content 1000 100 (by omega) (by omega) hex
  intro h0
  unfold fallbackRecs at h0
  rw [List.flatten_eq_nil_iff] at h0
  have hmem : ((chunk_text r.content 1000 100).take 3).enum.map (fun p =>
      ({ resource_id := r.id, chunk_index := (p.1 : Int), chunk_text := p.2,
         similarity := 1/2, resource_title := some r.title,
         resource_url := some r.url } : MatchRec)) ∈ rs.map (fun r =>
      ((chunk_text r.content 1000 100).take 3).enum.map (fun p =>
        ({ resource_id := r.id, chunk_index := (p.1 : Int), chunk_text := p.2,
           similarity := 1/2, resource_title := some r.title,
           resource_url := some r.url } : MatchRec))) :=
    List.mem_map_of_mem _ hr
  have := h0 _ hmem
  rcases hch : chunk_text r.content 1000 100 with _ | ⟨c0, crest⟩
  · exact hct hch
  · rw [hch] at this
    simp [List.take, List.enum] at this

theorem mem_mkSourceChunks {recs : List MatchRec} {c : SourceChunk}
    (hc : c ∈ mkSourceChunks recs) :
    ∃ s ∈ recs,
      c = { resource_id := s.resource_id, title := s.resource_title,
            url := s.resource_url, snippet := s.chunk_text.take 200 ++ pyOfString "...",
            similarity := s.similarity } := by
  simp only [mkSourceChunks, List.mem_map] at hc
  obtain ⟨s, hs, rfl⟩ := hc
  exact ⟨s, hs, rfl⟩

theorem mkSourceChunks_ne_nil {recs : List MatchRec} (h : recs ≠ []) :
    mkSourceChunks recs ≠ [] := by
  unfold mkSourceChunks
  simpa using h

/-! ## C4 -/

/-- C4: the pgvector qa/chat retrieval fallback.  Part (A): when the vector
search returns zero matches AND explicit resource ids were supplied, the
returned sources are exactly the fallback chunks — `chunk_text(content,
1000, 100)` per fetched resource, at most the first 3 chunks per resource,
every chunk carrying the fixed sentinel similarity `0.5` and the id of a
supplied resource — and at least one chunk is returned provided some
fetched resource has (non-whitespace) content.  Part (B): when the vector
search returns matches, the sources come from those matches — no fallback.
Part (C): when no resource ids were supplied and the search is empty, no
fallback runs — the sources are empty and no content fetch is even
attempted. -/
theorem C4_retrieval_fallback
    (req : ChatRequest) (env : ChatEnv) (v : List Rat) (txt : PyStr)
    (hsup : env.supabase_ok = .ok ())
    (hmode : req.mode ≠ ChatMode.summarize)
    (hprov : req.provider = ChatProvider.pgvector)
    (hkey : env.st.openai_api_key ≠ [])
    (hmsg : truthyOptStr req.message = true)
    (hembed : env.embedQ (pyOrD req.message []) = .ok v)
    (hcomp : ∀ p m t3, env.completeOpenAI p m t3 = .ok txt)
    (hU : ∀ m, env.insertUserMsg m = .ok ())
    (hA2 : ∀ t2 s, env.insertAssistantMsg t2 s = .ok ()) :
    (∀ (rids : List PyStr) (rows : List StoreRec),
      req.resource_ids = some rids → rids ≠ [] →
      env.rpcMatch v (1/2) 10 (some rids) = .ok [] →
      env.tableContent rids = .ok rows →
      ((chat req env).1.success = true
       ∧ (chat req env).1.sources = mkSourceChunks (fallbackRecs (rows.map resolveContentRow))
       ∧ (∀ c ∈ (chat req env).1.sources, c.similarity = 1/2)
       ∧ (∀ c ∈ (chat req env).1.sources,
           c.resource_id ∈ (rows.map resolveContentRow).map ResRec.id)
       ∧ ((∃ r ∈ rows.map resolveContentRow, ∃ ch ∈ r.content, isPySpace ch = false) →
           (chat req env).1.sources ≠ [])))
    ∧ (∀ (primary : List MatchRec) (metas : List MetaRec),
        primary ≠ [] →
        env.rpcMatch v (1/2) 10 req.resource_ids = .ok primary →
        env.tableMeta (dedupResourceIds primary) = .ok metas →
        (chat req env).1.sources = mkSourceChunks (enrichChunks primary metas))
    ∧ (truthyOptList req.resource_ids = false →
        env.rpcMatch v (1/2) 10 req.resource_ids = .ok [] →
        ((chat req env).1.sources = []
         ∧ ChatEffect.tableCall ∉ (chat req env).2)) := by
  have hval1 : ¬ (req.mode ≠ ChatMode.summarize ∧ truthyOptStr req.message = false) := by
    intro hcontra
    rw [hmsg] at hcontra
    exact absurd hcontra.2 (by simp)
  have hval2 : ¬ (req.mode = ChatMode.summarize ∧ truthyOptList req.resource_ids = false) := by
    intro hcontra
    exact hmode hcontra.1
  refine ⟨?_, ?_, ?_⟩
  · intro rids rows hrids hridsne hrpc hcontent
    have hre : rids.isEmpty = false := by simpa using hridsne
    have hsearch : search_similar_chunks env (pyOrD req.message []) (some rids) 10 (1/2)
        = (.ok [], [.embedCall, .rpcCall]) := by
      unfold search_similar_chunks generate_embedding
      rw [if_neg hkey, hembed]
      dsimp only
      rw [hrpc]
      simp
    have hrun : runPgvector req env
        = (.ok (.done txt (mkSourceChunks (fallbackRecs (rows.map resolveContentRow)))
            (pyOrD req.model (pyOfString "gpt-4o-mini"))),
           [.embedCall, .rpcCall, .tableCall, .completionCall]) := by
      unfold runPgvector
      rw [if_neg hkey]
      cases hmcase : req.mode with
      | summarize => exact absurd hmcase hmode
      | chat =>
        simp only [hmcase, hrids]
        rw [hsearch]
        simp [truthyOptList, hre, get_resource_content, hcontent, finishPgQA,
          completionToStep, chat_completion_svc, hkey, hcomp]
      | qa =>
        simp only [hmcase, hrids]
        rw [hsearch]
        simp [truthyOptList, hre, get_resource_content, hcontent, finishPgQA,
          completionToStep, chat_completion_svc, hkey, hcomp]
    have hchat1 : (chat req env).1
        = { success := true, response := some txt,
            sources := mkSourceChunks (fallbackRecs (rows.map resolveContentRow)),
            mode := chatModeStr req.mode, provider := chatProviderStr req.provider,
            model := pyOrD req.model (pyOfString "gpt-4o-mini"), error := none } := by
      unfold chat chatBody
      rw [hsup]
      rw [if_neg hval1, if_neg hval2]
      simp only [hprov]
      rw [hrun]
      by_cases hses : truthyOptStr req.session_id = true
      · simp [historyToResp, historyStep, hses, hU, hA2]
      · simp [historyToResp, historyStep, hses]
    refine ⟨by rw [hchat1], by rw [hchat1], ?_, ?_, ?_⟩
    · intro c hc
      rw [hchat1] at hc
      obtain ⟨s, hsrec, rfl⟩ := mem_mkSourceChunks hc
      exact fallbackRecs_similarity s hsrec
    · intro c hc
      rw [hchat1] at hc
      obtain ⟨s, hsrec, rfl⟩ := mem_mkSourceChunks hc
      exact fallbackRecs_resource_id s hsrec
    · intro hex
      rw [hchat1]
      exact mkSourceChunks_ne_nil (fallbackRecs_ne_nil hex)
  · intro primary metas hpne hrpc hmeta
    have hpe : primary.isEmpty = false := by simpa using hpne
    have hene : (enrichChunks primary metas).isEmpty = false := by
      unfold enrichChunks
      simpa using hpne
    have hsearch : search_similar_chunks env (pyOrD req.message []) req.resource_ids 10 (1/2)
        = (.ok (enrichChunks primary metas), [.embedCall, .rpcCall, .tableCall]) := by
      unfold search_similar_chunks generate_embedding
      rw [if_neg hkey, hembed]
      dsimp only
      rw [hrpc]
      simp [hpe, hmeta]
    have hrun : runPgvector req env
        = (.ok (.done txt (mkSourceChunks (enrichChunks primary metas))
            (pyOrD req.model (pyOfString "gpt-4o-mini"))),
           [.embedCall, .rpcCall, .tableCall, .completionCall]) := by
      unfold runPgvector
      rw [if_neg hkey]
      cases hmcase : req.mode with
      | summarize => exact absurd hmcase hmode
      | chat =>
        simp only [hmcase]
        rw [hsearch]
        simp [hene, finishPgQA, completionToStep, chat_completion_svc, hkey, hcomp]
      | qa =>
        simp only [hmcase]
        rw [hsearch]
        simp [hene, finishPgQA, completionToStep, chat_completion_svc, hkey, hcomp]
    have hchat1 : (chat req env).1
        = { success := true, response := some txt,
            sources := mkSourceChunks (enrichChunks primary metas),
            mode := chatModeStr req.mode, provider := chatProviderStr req.provider,
            model := pyOrD req.model (pyOfString "gpt-4o-mini"), error := none } := by
      unfold chat chatBody
      rw [hsup]
      rw [if_neg hval1, if_neg hval2]
      simp only [hprov]
      rw [hrun]
      by_cases hses : truthyOptStr req.session_id = true
      · simp [historyToResp, historyStep, hses, hU, hA2]
      · simp [historyToResp, historyStep, hses]
    rw [hchat1]
  · intro hnorids hrpc
    have hsearch : search_similar_chunks env (pyOrD req.message []) req.resource_ids 10 (1/2)
        = (.ok [], [.embedCall, .rpcCall]) := by
      unfold search_similar_chunks generate_embedding
      rw [if_neg hkey, hembed]
      dsimp only
      rw [hrpc]
      simp
    have hrun : runPgvector req env
        = (.ok (.done txt (mkSourceChunks []) (pyOrD req.model (pyOfString "gpt-4o-mini"))),
           [.embedCall, .rpcCall, .completionCall]) := by
      unfold runPgvector
      rw [if_neg hkey]
      cases hmcase : req.mode with
      | summarize => exact absurd hmcase hmode
      | chat =>
        simp only [hmcase]
        rw [hsearch]
        simp [hnorids, finishPgQA, completionToStep, chat_completion_svc, hkey, hcomp]
      | qa =>
        simp only [hmcase]
        rw [hsearch]
        simp [hnorids, finishPgQA, completionToStep, chat_completion_svc, hkey, hcomp]
    have hchat : chat req env
        = ({ success := true, response := some txt, sources := mkSourceChunks [],
             mode := chatModeStr req.mode, provider := chatProviderStr req.provider,
             model := pyOrD req.model (pyOfString "gpt-4o-mini"), error := none },
           [.embedCall, .rpcCall, .completionCall]
             ++ (if truthyOptStr req.session_id then
                  [ChatEffect.insertCall, ChatEffect.insertCall] else [])) := by
      unfold chat chatBody
      rw [hsup]
      rw [if_neg hval1, if_neg hval2]
      simp only [hprov]
      rw [hrun]
      by_cases hses : truthyOptStr req.session_id = true
      · simp [historyToResp, historyStep, hses, hU, hA2]
      · simp [historyToResp, historyStep, hses]
    rw [hchat]
    constructor
    · simp [mkSourceChunks]
    · by_cases hses : truthyOptStr req.session_id = true <;> simp [hses]

/-! ## Chat response invariants (C9, C10) -/

theorem endsWithSub_append (x suf : PyStr) : endsWithSub (x ++ suf) suf = true := by
  unfold endsWithSub
  rw [List.reverse_append]
  exact leadsWith_append_self _ _

theorem completionToStep_early {res : Except PyStr PyStr × List ChatEffect}
    {snk : List SourceChunk} {model : PyStr} {effs effs2 : List ChatEffect}
    {r : ChatResponse}
    (h : completionToStep res snk model effs = (.ok (.early r), effs2)) : False := by
  rcases res with ⟨e | t, efs⟩ <;> simp [completionToStep] at h

theorem completionToStep_done {res : Except PyStr PyStr × List ChatEffect}
    {snk : List SourceChunk} {model : PyStr} {effs : List ChatEffect}
    {txt : PyStr} {s2 : List SourceChunk} {m2 : PyStr} {effs2 : List ChatEffect}
    (h : completionToStep res snk model effs = (.ok (.done txt s2 m2), effs2)) :
    s2 = snk ∧ m2 = model := by
  rcases res with ⟨e | t, efs⟩ <;> simp [completionToStep] at h
  exact ⟨h.1.2.1.symm, h.1.2.2.symm⟩

theorem historyToResp_ok {res : Except PyStr Unit × List ChatEffect}
    {resp : ChatResponse} {effs : List ChatEffect} {r : ChatResponse}
    {effs2 : List ChatEffect}
    (h : historyToResp res resp effs = (.ok r, effs2)) : r = resp := by
  rcases res with ⟨e | u, efs⟩ <;> simp [historyToResp] at h
  exact h.1.symm

/-- Every early return of the pgvector branch is an error response built by
`chatErrResp`. -/
theorem runPgvector_early_inv {req : ChatRequest} {env : ChatEnv} {r : ChatResponse}
    {effs : List ChatEffect} (h : runPgvector req env = (.ok (.early r), effs)) :
    ∃ model msg, r = chatErrResp req model msg := by
  unfold runPgvector finishPgQA at h
  repeat' split at h
  all_goals try exact (completionToStep_early h).elim
  all_goals simp at h
  all_goals exact ⟨_, _, h.1.symm⟩

/-- Every early return of the gemini branch is an error response built by
`chatErrResp`. -/
theorem runGemini_early_inv {req : ChatRequest} {env : ChatEnv} {r : ChatResponse}
    {effs : List ChatEffect} (h : runGemini req env = (.ok (.early r), effs)) :
    ∃ model msg, r = chatErrResp req model msg := by
  unfold runGemini at h
  repeat' split at h
  all_goals try exact (completionToStep_early h).elim
  all_goals simp at h
  all_goals exact ⟨_, _, h.1.symm⟩

/-- Every `.done` outcome of the pgvector branch carries a sources list of
the `mkSourceChunks` shape (the summarize path carries `[]`, which is
`mkSourceChunks []`). -/
theorem runPgvector_done_sources {req : ChatRequest} {env : ChatEnv} {txt : PyStr}
    {sources : List SourceChunk} {model : PyStr} {effs : List ChatEffect}
    (h : runPgvector req env = (.ok (.done txt sources model), effs)) :
    ∃ recs, sources = mkSourceChunks recs := by
  unfold runPgvector finishPgQA at h
  repeat' split at h
  all_goals try simp at h
  all_goals first
    | (obtain ⟨hs2, hm2⟩ := completionToStep_done h
       exact ⟨_, hs2⟩)
    | (obtain ⟨hs2, hm2⟩ := completionToStep_done h
       exact ⟨[], hs2.trans rfl⟩)

/-- A response returned by `chatBody` either succeeded with no error field,
or failed with an error message. -/
theorem chatBody_ok_inv {req : ChatRequest} {env : ChatEnv} {r : ChatResponse}
    {effs : List ChatEffect} (h : chatBody req env = (.ok r, effs)) :
    (r.success = true ∧ r.error = none) ∨ (r.success = false ∧ r.error ≠ none) := by
  unfold chatBody at h
  split at h
  · simp at h
  · split at h
    · simp at h
      right
      rw [← h.1]
      simp [chatErrResp]
    · split at h
      · simp at h
        right
        rw [← h.1]
        simp [chatErrResp]
      · split at h
        · simp at h
        · rename_i r2 effs2 heq
          simp at h
          right
          have hearly : ∃ model msg, r2 = chatErrResp req model msg := by
            rcases hp : req.provider with _ | _
            · rw [hp] at heq
              exact runPgvector_early_inv heq
            · rw [hp] at heq
              exact runGemini_early_inv heq
          obtain ⟨model, msg, rfl⟩ := hearly
          rw [← h.1]
          simp [chatErrResp]
        · have hr := historyToResp_ok h
          left
          rw [hr]
          exact ⟨rfl, rfl⟩

/-- The sources of any chat response on the pgvector provider have the
`mkSourceChunks` shape. -/
theorem chat_pg_sources_shape {req : ChatRequest} {env : ChatEnv}
    (hprov : req.provider = ChatProvider.pgvector) :
    ∃ recs, (chat req env).1.sources = mkSourceChunks recs := by
  rcases hb : chatBody req env with ⟨res, effs⟩
  rcases res with e | r
  · refine ⟨[], ?_⟩
    unfold chat
    rw [hb]
    simp [mkSourceChunks]
  · suffices hsrc : ∃ recs, r.sources = mkSourceChunks recs by
      obtain ⟨recs, hr⟩ := hsrc
      refine ⟨recs, ?_⟩
      unfold chat
      rw [hb]
      simpa using hr
    unfold chatBody at hb
    split at hb
    · simp at hb
    · split at hb
      · simp at hb
        exact ⟨[], by rw [← hb.1]; simp [chatErrResp, mkSourceChunks]⟩
      · split at hb
        · simp at hb
          exact ⟨[], by rw [← hb.1]; simp [chatErrResp, mkSourceChunks]⟩
        · split at hb
          · simp at hb
          · rename_i r2 effs2 heq
            simp at hb
            rw [hprov] at heq
            obtain ⟨model, msg, rfl⟩ := runPgvector_early_inv heq
            exact ⟨[], by rw [← hb.1]; simp [chatErrResp, mkSourceChunks]⟩
          · rename_i txt sources2 model2 effs2 heq
            have hr := historyToResp_ok hb
            rw [hprov] at heq
            obtain ⟨recs, hrecs⟩ := runPgvector_done_sources heq
            exact ⟨recs, by rw [hr]; simpa using hrecs⟩

/-! ## C9 -/

/-- C9: the chat endpoint is total — for every request and every oracle
outcome it returns a well-typed `ChatResponse` with `success=true` and no
error, or `success=false` with an error message (any internal fault is
caught by the `try/except`); a qa/chat request without a message, and a
summarize request without resource ids, are rejected with `success=false`
and a descriptive error BEFORE any external call (the effect trace is
empty). -/
theorem C9_chat_total_error_handling (req : ChatRequest) (env : ChatEnv) :
    (((chat req env).1.success = true ∧ (chat req env).1.error = none)
      ∨ ((chat req env).1.success = false ∧ (chat req env).1.error ≠ none))
    ∧ (req.mode ≠ ChatMode.summarize → truthyOptStr req.message = false →
        ((chat req env).1.success = false ∧ (chat req env).2 = []
         ∧ (env.supabase_ok = .ok () →
             (chat req env).1.error = some (pyOfString "Message is required for chat/qa modes"))))
    ∧ (req.mode = ChatMode.summarize → truthyOptList req.resource_ids = false →
        ((chat req env).1.success = false ∧ (chat req env).2 = []
         ∧ (env.supabase_ok = .ok () →
             (chat req env).1.error = some (pyOfString "resource_ids required for summarize mode")))) := by
  refine ⟨?_, ?_, ?_⟩
  · rcases hb : chatBody req env with ⟨res, effs⟩
    rcases res with e | r
    · right
      unfold chat
      rw [hb]
      simp
    · have hinv := chatBody_ok_inv hb
      unfold chat
      rw [hb]
      simpa using hinv
  · intro h1 h2
    rcases hs : env.supabase_ok with e | u
    · unfold chat chatBody
      rw [hs]
      refine ⟨by simp, by simp, fun hok => ?_⟩
      exact absurd hok (by simp)
    · cases u
      unfold chat chatBody
      rw [hs, if_pos ⟨h1, h2⟩]
      exact ⟨by simp [chatErrResp], rfl, fun _ => by simp [chatErrResp]⟩
  · intro h1 h2
    rcases hs : env.supabase_ok with e | u
    · unfold chat chatBody
      rw [hs]
      refine ⟨by simp, by simp, fun hok => ?_⟩
      exact absurd hok (by simp)
    · cases u
      unfold chat chatBody
      rw [hs, if_neg (fun hc => hc.1 h1), if_pos ⟨h1, h2⟩]
      exact ⟨by simp [chatErrResp], rfl, fun _ => by simp [chatErrResp]⟩

theorem C9_chat_total_error_handling_witness :
    (chat chatReqNoMsg chatEnvFixture).1.success = false
    ∧ (chat chatReqNoMsg chatEnvFixture).2 = []
    ∧ (chat chatReqNoMsg chatEnvFixture).1.error
        = some (pyOfString "Message is required for chat/qa modes") := by
  have h := (C9_chat_total_error_handling chatReqNoMsg chatEnvFixture).2.1
    (by decide) (by decide)
  exact ⟨h.1, h.2.1, h.2.2 rfl⟩

/-! ## C10 -/

/-- C10: in pgvector qa/chat mode every `SourceChunk` of the response has
its snippet equal to the first 200 characters of the underlying chunk text
with `"..."` appended — unconditionally, also for texts of 200 characters
or fewer, so the snippet always ends in `"..."` and has length
`min(200, len(text)) + 3` (a rule distinct from the adapters' 300-character
truncation). -/
theorem C10_chat_snippet_rule (req : ChatRequest) (env : ChatEnv)
    (hprov : req.provider = ChatProvider.pgvector)
    (hmode : req.mode ≠ ChatMode.summarize) :
    ∀ c ∈ (chat req env).1.sources,
      ∃ t : PyStr, c.snippet = t.take 200 ++ pyOfString "..."
        ∧ c.snippet.length = min 200 t.length + 3
        ∧ endsWithSub c.snippet (pyOfString "...") = true := by
  intro c hc
  obtain ⟨recs, hs⟩ := chat_pg_sources_shape hprov
  rw [hs] at hc
  obtain ⟨s, hsrec, rfl⟩ := mem_mkSourceChunks hc
  refine ⟨s.chunk_text, rfl, ?_, endsWithSub_append _ _⟩
  have h3 : (pyOfString "...").length = 3 := rfl
  simp only [List.length_append, List.length_take, h3]

theorem C10_chat_snippet_rule_witness :
    (chatReqQA.provider = ChatProvider.pgvector ∧ chatReqQA.mode ≠ ChatMode.summarize)
    ∧ (∀ c ∈ (chat chatReqQA chatEnvFixture).1.sources,
        ∃ t : PyStr, c.snippet = t.take 200 ++ pyOfString "..."
          ∧ c.snippet.length = min 200 t.length + 3
          ∧ endsWithSub c.snippet (pyOfString "...") = true)
    ∧ (chat chatReqQA chatEnvFixture).1.sources.map SourceChunk.snippet
        = [pyOfString "hello world..."] :=
  ⟨⟨rfl, by decide⟩,
   C10_chat_snippet_rule chatReqQA chatEnvFixture rfl (by decide),
   by decide⟩

theorem C4_retrieval_fallback_witness :
    ((chat chatReqQA chatEnvFixture).1.success = true
     ∧ (chat chatReqQA chatEnvFixture).1.sources
         = mkSourceChunks (fallbackRecs ([storeRowR1].map resolveContentRow))
     ∧ (∀ c ∈ (chat chatReqQA chatEnvFixture).1.sources, c.similarity = 1/2)
     ∧ (∀ c ∈ (chat chatReqQA chatEnvFixture).1.sources,
         c.resource_id ∈ ([storeRowR1].map resolveContentRow).map ResRec.id)
     ∧ ((∃ r ∈ [storeRowR1].map resolveContentRow, ∃ ch ∈ r.content, isPySpace ch = false) →
         (chat chatReqQA chatEnvFixture).1.sources ≠ []))
    ∧ (chat chatReqQA chatEnvFixture).1.sources
        = [{ resource_id := pyOfString "r1", title := some (pyOfString "Title"),
             url := some (pyOfString "http://r1"),
             snippet := pyOfString "hello world...", similarity := 1/2 }] :=
  ⟨(C4_retrieval_fallback chatReqQA chatEnvFixture [] (pyOfString "answer")
      rfl (by decide) rfl (by decide) rfl rfl (fun _ _ _ => rfl) (fun _ => rfl)
      (fun _ _ => rfl)).1
      [pyOfString "r1"] [storeRowR1] rfl (by decide) rfl rfl,
   by rfl⟩
